import Mathlib

/-!
# 3DSident: menu controller and page renderer

A shallow embedding of `source/gui.cpp` (with the parts of `source/service.cpp`
it relies on).  Drawing is modelled by the list of draw calls a renderer makes,
input by the two key masks latched by one `hidScanInput` (`hidKeysDown`,
`hidKeysHeld`), and the loops by recursion over the list of polls they consume.

`int selection` is embedded as `Int`; the invariant proved below keeps it in
`0..9`, so the machine range is never left.
-/

namespace GUI

/-! ## Key masks (libctru `hid.h`, `BIT(n) = 1 << n`) -/

def KEY_A : Nat := 2 ^ 0
def KEY_SELECT : Nat := 2 ^ 2
def KEY_START : Nat := 2 ^ 3
def KEY_DUP : Nat := 2 ^ 6
def KEY_DDOWN : Nat := 2 ^ 7
def KEY_R : Nat := 2 ^ 8
def KEY_L : Nat := 2 ^ 9
def KEY_TOUCH : Nat := 2 ^ 20
def KEY_CPAD_UP : Nat := 2 ^ 30
def KEY_CPAD_DOWN : Nat := 2 ^ 31
def KEY_UP : Nat := KEY_DUP ||| KEY_CPAD_UP
def KEY_DOWN : Nat := KEY_DDOWN ||| KEY_CPAD_DOWN

/-- The C test `keys & mask` used as a condition. -/
def pressed (keys mask : Nat) : Bool := (keys &&& mask) != 0

/-! ## Page selection (`enum PageState`) -/

def KERNEL_INFO_PAGE : Int := 0
def SYSTEM_INFO_PAGE : Int := 1
def BATTERY_INFO_PAGE : Int := 2
def NNID_INFO_PAGE : Int := 3
def CONFIG_INFO_PAGE : Int := 4
def HARDWARE_INFO_PAGE : Int := 5
def WIFI_INFO_PAGE : Int := 6
def STORAGE_INFO_PAGE : Int := 7
def MISC_INFO_PAGE : Int := 8
def EXIT_PAGE : Int := 9
def MAX_ITEMS : Int := 10

/-- The locals of `MainMenu` that survive an iteration, plus the HOME-button
permission toggled through `aptSetHomeAllowed`. -/
structure MenuState where
  selection : Int
  displayInfo : Bool
  buttonTestEnabled : Bool
  homeAllowed : Bool
deriving DecidableEq, Repr

/-- The locals as `MainMenu` initialises them (gui.cpp 446-447). -/
def MainMenuInit (homeAllowed : Bool) : MenuState :=
  { selection := 0, displayInfo := true, buttonTestEnabled := false, homeAllowed := homeAllowed }

/-- The chord test shared by `MainMenu` (line 566) and `ButtonTester` (line 382). -/
def chordLR (kDown kHeld : Nat) : Bool :=
  (pressed kHeld KEY_L && pressed kDown KEY_R) || (pressed kHeld KEY_R && pressed kDown KEY_L)

/-- Lines 548-553: `selection++` on Down, else `selection--` on Up. -/
def moveSelection (selection : Int) (kDown : Nat) : Int :=
  if pressed kDown KEY_DOWN then selection + 1
  else if pressed kDown KEY_UP then selection - 1
  else selection

/-- Lines 555-560: the two wrap tests, in the order of the source. -/
def wrapSelection (selection : Int) : Int :=
  let s1 := if selection > EXIT_PAGE then KERNEL_INFO_PAGE else selection
  if s1 < KERNEL_INFO_PAGE then EXIT_PAGE else s1

/-- Lines 548-573 of `MainMenu`: the state update made from one poll, and
whether the `break` at line 572 is taken. -/
def MainMenuStep (s : MenuState) (kDown kHeld : Nat) : MenuState × Bool :=
  let selection := wrapSelection (moveSelection s.selection kDown)
  let displayInfo := if pressed kDown KEY_SELECT then !s.displayInfo else s.displayInfo
  let chord := chordLR kDown kHeld
  let homeAllowed := if chord then false else s.homeAllowed
  let buttonTestEnabled := if chord then true else s.buttonTestEnabled
  ({ selection := selection, displayInfo := displayInfo,
     buttonTestEnabled := buttonTestEnabled, homeAllowed := homeAllowed },
   pressed kDown KEY_START || (pressed kDown KEY_A && decide (selection = EXIT_PAGE)))

/-! ## The button tester (gui.cpp 361-443) -/

/-- One `hidScanInput`: the masks it latches and the touch position that
`hidTouchRead` would return. -/
structure Poll where
  kDown : Nat
  kHeld : Nat
  touchPx : Nat
  touchPy : Nat
deriving DecidableEq, Repr

/-- The variables of `ButtonTester` that one frame passes to the next: the
`enabled` reference, the HOME permission, and the cursor position. -/
structure TesterState where
  enabled : Bool
  homeAllowed : Bool
  touchX : Nat
  touchY : Nat
deriving DecidableEq, Repr

/-- The body of the `while (enabled)` loop, lines 372-441.  The overlay drawn
after line 393 reads the state but does not write it. -/
def ButtonTesterFrame (t : TesterState) (p : Poll) : TesterState :=
  let chord := chordLR p.kDown p.kHeld
  let touching := pressed p.kHeld KEY_TOUCH
  { enabled := if chord then false else t.enabled
    homeAllowed := if chord then true else t.homeAllowed
    touchX := if touching then p.touchPx else t.touchX
    touchY := if touching then p.touchPy else t.touchY }

/-- The `while (enabled)` loop fed with the polls of its successive frames.
Returns the state when the polls run out or the loop is left, and the polls it
did not consume; the loop has returned exactly when `enabled` is false. -/
def ButtonTesterLoop (t : TesterState) : List Poll → TesterState × List Poll
  | [] => (t, [])
  | p :: ps => if t.enabled then ButtonTesterLoop (ButtonTesterFrame t p) ps else (t, p :: ps)

/-- The call `ButtonTester(enabled)`: `touchX = touchY = 0` at entry. -/
def ButtonTester (enabled homeAllowed : Bool) (polls : List Poll) : TesterState × List Poll :=
  ButtonTesterLoop { enabled := enabled, homeAllowed := homeAllowed, touchX := 0, touchY := 0 } polls

/-! ## The controller loop (gui.cpp 477-574) -/

/-- What one pass of the `while (aptMainLoop())` loop receives: the value of
`aptMainLoop()`, the polls made inside `ButtonTester`, and the poll of line 544. -/
structure Iteration where
  aptMainLoop : Bool
  tester : List Poll
  kDown : Nat
  kHeld : Nat
deriving DecidableEq, Repr

/-- The state a pass renders from: the page given to the `switch` of line 484
and to the selector bar of line 534, and the reveal flag handed to the page. -/
structure Frame where
  page : Int
  displayInfo : Bool
deriving DecidableEq, Repr

/-- The loop of `MainMenu` over the passes it is fed.  Returns the frames
rendered and the last state.  A pass whose tester polls end before the chord
leaves the program inside `ButtonTester`, so later passes are not reached. -/
def MainMenuLoop (s : MenuState) : List Iteration → List Frame × MenuState
  | [] => ([], s)
  | it :: rest =>
    if it.aptMainLoop then
      let fr : Frame := { page := s.selection, displayInfo := s.displayInfo }
      let t := (ButtonTester s.buttonTestEnabled s.homeAllowed it.tester).1
      let s1 : MenuState := { s with buttonTestEnabled := t.enabled, homeAllowed := t.homeAllowed }
      if t.enabled then ([fr], s1)
      else
        let r := MainMenuStep s1 it.kDown it.kHeld
        if r.2 then ([fr], r.1)
        else (fr :: (MainMenuLoop r.1 rest).1, (MainMenuLoop r.1 rest).2)
    else ([], s)

/-- The frames and final state of `MainMenu` from its initial locals. -/
def MainMenu (homeAllowed : Bool) (its : List Iteration) : List Frame × MenuState :=
  MainMenuLoop (MainMenuInit homeAllowed) its

/-! ## Snapshot records (`service.h`; field types read off their uses in gui.cpp) -/

structure KernelInfo where
  kernelVersion : String
  firmVersion : String
  systemVersion : String
  initialVersion : String
  sdmcCid : String
  nandCid : String
  deviceId : Nat

structure SystemInfo where
  model : String
  hardware : String
  region : String
  language : String
  localFriendCodeSeed : Nat
  nandLocalFriendCodeSeed : String
  macAddress : String
  serialNumber : String
  checkDigit : Int
  soapId : Nat

structure SystemStateInfo where
  rawButtonState : Nat
  pmicVendorCode : Nat
  batteryVendorCode : Nat

structure NNIDInfo where
  persistentID : Nat
  transferableIdBase : Nat
  principalID : Nat

structure ConfigInfo where
  username : String
  birthday : String
  eulaVersion : String
  parentalPin : String
  parentalEmail : String
  parentalSecretAnswer : String

structure HardwareInfo where
  screenUpper : String
  screenLower : String
  soundOutputMode : String

structure WifiInfo where
  slot : Fin 3 → Bool
  ssid : Fin 3 → String
  passphrase : Fin 3 → String
  securityMode : Fin 3 → String

structure StorageInfo where
  usedSize : Fin 4 → Nat
  totalSize : Fin 4 → Nat
  freeSizeString : Fin 4 → String
  usedSizeString : Fin 4 → String
  totalSizeString : Fin 4 → String

structure MiscInfo where
  sdTitleCount : Nat
  nandTitleCount : Nat
  ticketCount : Nat

/-- The nine records `MainMenu` fills between `Service::Init` and
`Service::Exit` (gui.cpp 465-475). -/
structure Snapshot where
  kernelInfo : KernelInfo
  systemInfo : SystemInfo
  nnidInfo : NNIDInfo
  configInfo : ConfigInfo
  hardwareInfo : HardwareInfo
  wifiInfo : WifiInfo
  storageInfo : StorageInfo
  miscInfo : MiscInfo
  systemStateInfo : SystemStateInfo

/-- libctru `FS_SystemMediaType`. -/
def SYSTEM_MEDIATYPE_CTR_NAND : Fin 4 := 0
def SYSTEM_MEDIATYPE_TWL_NAND : Fin 4 := 1
def SYSTEM_MEDIATYPE_SD : Fin 4 := 2
def SYSTEM_MEDIATYPE_TWL_PHOTO : Fin 4 := 3

/-! ## Queries made while rendering -/

/-- libctru `R_FAILED(res)`: `res < 0`. -/
def R_FAILED (res : Int) : Bool := decide (res < 0)

/-- What the system answers to one IPC request: the result of
`svcSendSyncRequest`, and the words `cmdbuf[1]` (as a `Result`) and `cmdbuf[2]`
of the reply. -/
structure IpcReply where
  sendResult : Int
  cmdbuf1 : Int
  cmdbuf2 : Nat
deriving DecidableEq, Repr

/-- The query `MCUHWC::GetBatteryTemperature` (service.cpp 13-25) on an out parameter
holding `temp`: the return value and the out parameter afterwards.  A failed
send returns before the store; otherwise the low byte of `cmdbuf[2]` is stored
and `cmdbuf[1]` returned. -/
def MCUHWC.GetBatteryTemperature (reply : IpcReply) (temp : Nat) : Int × Nat :=
  if R_FAILED reply.sendResult then (reply.sendResult, temp)
  else (reply.cmdbuf1, reply.cmdbuf2 % 256)

/-- The libctru byte queries (`MCUHWC_GetBatteryLevel`, `MCUHWC_GetBatteryVoltage`,
`MCUHWC_GetFwVerHigh`, `MCUHWC_GetFwVerLow`, `PTMU_GetBatteryChargeState`,
`PTMU_GetAdapterState`): the same send, store, return sequence as
`MCUHWC::GetBatteryTemperature`. -/
def ipcQueryU8 (reply : IpcReply) (out : Nat) : Int × Nat :=
  if R_FAILED reply.sendResult then (reply.sendResult, out)
  else (reply.cmdbuf1, reply.cmdbuf2 % 256)

/-- Everything a page reads from the system at render time instead of from the
snapshot. -/
structure Live where
  batteryLevel : IpcReply
  batteryChargeState : IpcReply
  batteryVoltage : IpcReply
  batteryTemperature : IpcReply
  adapterState : IpcReply
  fwVerHigh : IpcReply
  fwVerLow : IpcReply
  powersaveStatus : String
  audioJackStatus : Bool
  cardSlotStatus : Bool
  sdInserted : Bool
  brightness : Nat
  autoBrightnessStatus : String
  wifiStrength : Nat
  hostname : String

/-! ## Draw calls -/

inductive Colour
  | guiBgcolour
  | guiStatusBarColour
  | guiMenuBarColour
  | guiSelectorColour
  | guiTitleColour
  | guiDescrColour
deriving DecidableEq, Repr

/-! ## Binary floating point

Finite `double` and `float` values are held as the rationals they denote, and
every operation is followed by the rounding the format applies: to the nearest
value of 53 (`double`) or 24 (`float`) significant binary digits, a tie going
to the even significand.  The exponent is not bounded; for the 64-bit sizes and
the constant 58 used below every intermediate value lies in the normal range of
both formats, where this is the IEEE 754 result. -/

/-- Round to the nearest integer, a tie going to the even neighbour. -/
def roundHalfEven (x : ℚ) : ℤ :=
  if x - ⌊x⌋ < 1 / 2 then ⌊x⌋
  else if 1 / 2 < x - ⌊x⌋ then ⌊x⌋ + 1
  else if ⌊x⌋ % 2 = 0 then ⌊x⌋ else ⌊x⌋ + 1

/-- Round to `p` significant binary digits, to nearest with ties to even: with
`e = ⌊log₂ |q|⌋` the value is a multiple of `2 ^ (e - (p - 1))`. -/
def roundBinary (p : ℕ) (q : ℚ) : ℚ :=
  if q = 0 then 0
  else (roundHalfEven (q / 2 ^ (Int.log 2 |q| - ((p : ℤ) - 1))) : ℚ) *
    2 ^ (Int.log 2 |q| - ((p : ℤ) - 1))

/-- The `double` nearest to `q` (53 significant digits). -/
def toDouble (q : ℚ) : ℚ := roundBinary 53 q

/-- The `float` nearest to `q` (24 significant digits). -/
def toFloat (q : ℚ) : ℚ := roundBinary 24 q

/-- A floating value: a finite number, or one of the two non-finite results a
division of non-negative numbers can give. -/
inductive FVal
  | fin (q : ℚ)
  | inf
  | nan
deriving DecidableEq

/-- The `double` quotient `a / b` of two non-negative doubles: a zero divisor
gives NaN for `0 / 0` and infinity otherwise, and a finite quotient is rounded
to `double`. -/
def FVal.div (a b : ℚ) : FVal :=
  if b = 0 then (if a = 0 then FVal.nan else FVal.inf) else FVal.fin (toDouble (a / b))

/-- The `double` product with a positive finite constant. -/
def FVal.scale (v : FVal) (k : ℚ) : FVal :=
  match v with
  | FVal.fin q => FVal.fin (toDouble (q * k))
  | FVal.inf => FVal.inf
  | FVal.nan => FVal.nan

/-- The conversion of a `double` to the `float` parameter it is passed as. -/
def FVal.narrow : FVal → FVal
  | FVal.fin q => FVal.fin (toFloat q)
  | FVal.inf => FVal.inf
  | FVal.nan => FVal.nan

/-- An argument handed to a `printf`-style format. -/
inductive Arg
  | str (s : String)
  | int (v : Int)
  | real (q : ℚ)
deriving DecidableEq

/-- The draw calls of the page renderers, with the arguments they are given
(the depth and text size, `guiTexSize` throughout, are left out). -/
inductive DrawCmd
  /-- Call `C2D_DrawRectSolid(x, y, guiTexSize, w, h, colour)`. -/
  | rect (x y : Int) (w : FVal) (h : Int) (colour : Colour)
  /-- Call `GUI::DrawItem(index, title, text)`. -/
  | item (index : Int) (title text : String)
  /-- Call `GUI::DrawItemf(index, title, format, args...)`. -/
  | itemf (index : Int) (title format : String) (args : List Arg)
  /-- Call `GUI::DrawItem(x, y, title, text)`. -/
  | itemAt (x y : Int) (title text : String)
  /-- Call `GUI::DrawTextf(x, y, guiTexSize, colour, format, args...)`. -/
  | textf (x y : Int) (colour : Colour) (format : String) (args : List Arg)
  /-- Call `GUI::DrawImage(image, x, y)`. -/
  | image (image : String) (x y : Int)
deriving DecidableEq

/-! ## Page renderers (gui.cpp 179-335) -/

def KernelInfoPage (info : KernelInfo) (displayInfo : Bool) : List DrawCmd :=
  [ DrawCmd.itemf 1 "内核版本:" info.kernelVersion [],
    DrawCmd.item 2 "固件版本:" info.firmVersion,
    DrawCmd.itemf 3 "系统版本:" info.systemVersion [],
    DrawCmd.itemf 4 "出厂系统版本:" info.initialVersion [],
    DrawCmd.itemf 5 "SDMC CID:" (if displayInfo then info.sdmcCid else "") [],
    DrawCmd.itemf 6 "NAND CID:" (if displayInfo then info.nandCid else "") [],
    DrawCmd.itemf 7 "设备 ID:" "%llu" [Arg.int (if displayInfo then info.deviceId else 0)] ]

def SystemInfoPage (info : SystemInfo) (displayInfo : Bool) : List DrawCmd :=
  [ DrawCmd.itemf 1 "型号:" "%s (%s - %s)"
      [Arg.str info.model, Arg.str info.hardware, Arg.str info.region],
    DrawCmd.item 2 "原始系统语言:" info.language,
    DrawCmd.itemf 3 "出厂 LFC 种子:" "%010llX"
      [Arg.int (if displayInfo then info.localFriendCodeSeed else 0)],
    DrawCmd.itemf 4 "从 NAND 获取到的 LFC 种子:" "%s"
      [Arg.str (if displayInfo then info.nandLocalFriendCodeSeed else "")],
    DrawCmd.itemf 5 "MAC 地址:" (if displayInfo then info.macAddress else "") [],
    DrawCmd.itemf 6 "序列号:" "%s %d"
      [Arg.str (if displayInfo then info.serialNumber else ""),
       Arg.int (if displayInfo then info.checkDigit else 0)],
    DrawCmd.itemf 7 "ECS 设备 ID:" "%llu" [Arg.int (if displayInfo then info.soapId else 0)] ]

/-- The value `static_cast<u8>((temp * 9) / 5 + 32)` of line 214. -/
def fahrenheit (temp : Nat) : Nat := ((temp * 9) / 5 + 32) % 256

def BatteryInfoPage (info : SystemStateInfo) (live : Live) : List DrawCmd :=
  let level := ipcQueryU8 live.batteryLevel 0
  let charge := ipcQueryU8 live.batteryChargeState 0
  let voltage := (ipcQueryU8 live.batteryVoltage 0).2
  let temp := MCUHWC.GetBatteryTemperature live.batteryTemperature 0
  let adapter := ipcQueryU8 live.adapterState 0
  let fwVerHigh := (ipcQueryU8 live.fwVerHigh 0).2
  let fwVerLow := (ipcQueryU8 live.fwVerLow 0).2
  [ DrawCmd.itemf 1 "电量百分比:" "%3d%% (%s)"
      [Arg.int (if R_FAILED level.1 then 0 else level.2),
       Arg.str (if R_FAILED charge.1 then "未知"
                else if charge.2 ≠ 0 then "充电中" else "未在充电")],
    DrawCmd.itemf 2 "电池电压:" "%d (%.1f V)"
      [Arg.int voltage, Arg.real (5 * ((voltage : ℚ) / 256))],
    DrawCmd.itemf 3 "电池温度:" "%d °C (%d °F)"
      [Arg.int (if R_FAILED temp.1 then 0 else temp.2),
       Arg.int (if R_FAILED temp.1 then 0 else fahrenheit temp.2)],
    DrawCmd.itemf 4 "适配器状态:"
      (if R_FAILED adapter.1 then "未知" else if adapter.2 ≠ 0 then "已连接" else "未连接") [],
    DrawCmd.itemf 5 "MCU 固件:" "%u.%u" [Arg.int ((fwVerHigh : Int) - 0x10), Arg.int fwVerLow],
    DrawCmd.itemf 6 "PMIC 厂商代码:" "%x" [Arg.int info.pmicVendorCode],
    DrawCmd.itemf 7 "电池厂商代码:" "%x" [Arg.int info.batteryVendorCode] ]

def NNIDInfoPage (info : NNIDInfo) (displayInfo : Bool) : List DrawCmd :=
  [ DrawCmd.itemf 1 "持久化 ID:" "%u" [Arg.int (if displayInfo then info.persistentID else 0)],
    DrawCmd.itemf 2 "可转移 ID 凭据:" "%llu"
      [Arg.int (if displayInfo then info.transferableIdBase else 0)],
    DrawCmd.itemf 3 "主 ID:" "%u" [Arg.int (if displayInfo then info.principalID else 0)] ]

def ConfigInfoPage (info : ConfigInfo) (displayInfo : Bool) (live : Live) : List DrawCmd :=
  [ DrawCmd.item 1 "用户昵称:" info.username,
    DrawCmd.item 2 "生日:" (if displayInfo then info.birthday else ""),
    DrawCmd.item 3 "EULA 版本:" info.eulaVersion,
    DrawCmd.item 4 "家长控制 Pin 码:" (if displayInfo then info.parentalPin else ""),
    DrawCmd.item 5 "家长控制电子邮箱:" (if displayInfo then info.parentalEmail else ""),
    DrawCmd.item 6 "家长控制安全问题答案:"
      (if displayInfo then info.parentalSecretAnswer else ""),
    DrawCmd.item 7 "省电模式:" live.powersaveStatus ]

def HardwareInfoPage (info : HardwareInfo) (isNew3DS : Bool) (live : Live) : List DrawCmd :=
  [ DrawCmd.item 1 "上屏类型:" info.screenUpper,
    DrawCmd.item 2 "下屏类型:" info.screenLower,
    DrawCmd.item 3 "耳机孔状态:" (if live.audioJackStatus then "已插接" else "未插接"),
    DrawCmd.item 4 "卡带卡槽状态:" (if live.cardSlotStatus then "已插卡" else "未插卡"),
    DrawCmd.item 5 "SD卡槽状态:" (if live.sdInserted then "已插卡" else "未插卡"),
    DrawCmd.item 6 "音频输出:" info.soundOutputMode,
    if isNew3DS then
      DrawCmd.itemf 7 "亮度等级:" "%lu (自动亮度模式: %s)"
        [Arg.int live.brightness, Arg.str live.autoBrightnessStatus]
    else
      DrawCmd.itemf 7 "亮度等级:" "%lu" [Arg.int live.brightness] ]

/-- The body of the `for` loop of `WifiInfoPage` for slot `i`. -/
def WifiSlot (info : WifiInfo) (displayInfo : Bool) (i : Fin 3) : List DrawCmd :=
  if info.slot i then
    [ DrawCmd.rect 15 (27 + (i.val : Int) * 68) (FVal.fin 370) 70 Colour.guiTitleColour,
      DrawCmd.rect 16 (28 + (i.val : Int) * 68) (FVal.fin 368) 68 Colour.guiStatusBarColour,
      DrawCmd.textf 20 (30 + (i.val : Int) * 68) Colour.guiTitleColour "WiFi 位 %d:"
        [Arg.int ((i.val : Int) + 1)],
      DrawCmd.textf 20 (46 + (i.val : Int) * 68) Colour.guiTitleColour "SSID: %s"
        [Arg.str (info.ssid i)],
      DrawCmd.textf 20 (62 + (i.val : Int) * 68) Colour.guiTitleColour "密码: %s (%s)"
        [Arg.str (if displayInfo then info.passphrase i else ""), Arg.str (info.securityMode i)] ]
  else []

def WifiInfoPage (info : WifiInfo) (displayInfo : Bool) : List DrawCmd :=
  DrawCmd.rect 0 20 (FVal.fin 400) 220 Colour.guiBgcolour ::
    (WifiSlot info displayInfo 0 ++ WifiSlot info displayInfo 1 ++ WifiSlot info displayInfo 2)

/-- The width of the filled part of a storage gauge:
`(static_cast<double>(used) / static_cast<double>(total)) * 58.f`, computed in
`double` and converted to the `float` parameter `w` of `C2D_DrawRectSolid`. -/
def gaugeFill (used total : Nat) : FVal :=
  ((FVal.div (toDouble used) (toDouble total)).scale 58).narrow

def StorageInfoPage (info : StorageInfo) : List DrawCmd :=
  [ DrawCmd.rect 0 20 (FVal.fin 400) 220 Colour.guiBgcolour,
    -- SD info
    DrawCmd.rect 20 105 (FVal.fin 60) 10 Colour.guiTitleColour,
    DrawCmd.rect 21 106 (FVal.fin 58) 8 Colour.guiBgcolour,
    DrawCmd.rect 21 106
      (gaugeFill (info.usedSize SYSTEM_MEDIATYPE_SD) (info.totalSize SYSTEM_MEDIATYPE_SD)) 8
      Colour.guiSelectorColour,
    DrawCmd.itemAt 85 50 "SD:" "",
    DrawCmd.itemAt 85 71 "可用:" (info.freeSizeString SYSTEM_MEDIATYPE_SD),
    DrawCmd.itemAt 85 87 "已用:" (info.usedSizeString SYSTEM_MEDIATYPE_SD),
    DrawCmd.itemAt 85 103 "容量:" (info.totalSizeString SYSTEM_MEDIATYPE_SD),
    DrawCmd.image "driveIcon" 20 40,
    -- Nand info
    DrawCmd.rect 220 105 (FVal.fin 60) 10 Colour.guiTitleColour,
    DrawCmd.rect 221 106 (FVal.fin 58) 8 Colour.guiBgcolour,
    DrawCmd.rect 221 106
      (gaugeFill (info.usedSize SYSTEM_MEDIATYPE_CTR_NAND)
        (info.totalSize SYSTEM_MEDIATYPE_CTR_NAND)) 8
      Colour.guiSelectorColour,
    DrawCmd.itemAt 285 50 "CTR Nand:" "",
    DrawCmd.itemAt 285 71 "可用:" (info.freeSizeString SYSTEM_MEDIATYPE_CTR_NAND),
    DrawCmd.itemAt 285 87 "已用:" (info.usedSizeString SYSTEM_MEDIATYPE_CTR_NAND),
    DrawCmd.itemAt 285 103 "容量:" (info.totalSizeString SYSTEM_MEDIATYPE_CTR_NAND),
    DrawCmd.image "driveIcon" 220 40,
    -- TWL nand info
    DrawCmd.rect 20 200 (FVal.fin 60) 10 Colour.guiTitleColour,
    DrawCmd.rect 21 201 (FVal.fin 58) 8 Colour.guiBgcolour,
    DrawCmd.rect 21 201
      (gaugeFill (info.usedSize SYSTEM_MEDIATYPE_TWL_NAND)
        (info.totalSize SYSTEM_MEDIATYPE_TWL_NAND)) 8
      Colour.guiSelectorColour,
    DrawCmd.itemAt 85 145 "TWL Nand:" "",
    DrawCmd.itemAt 85 166 "可用:" (info.freeSizeString SYSTEM_MEDIATYPE_TWL_NAND),
    DrawCmd.itemAt 85 182 "已用:" (info.usedSizeString SYSTEM_MEDIATYPE_TWL_NAND),
    DrawCmd.itemAt 85 198 "容量:" (info.totalSizeString SYSTEM_MEDIATYPE_TWL_NAND),
    DrawCmd.image "driveIcon" 20 135,
    -- TWL photo info
    DrawCmd.rect 220 200 (FVal.fin 60) 10 Colour.guiTitleColour,
    DrawCmd.rect 221 201 (FVal.fin 58) 8 Colour.guiBgcolour,
    DrawCmd.rect 221 201
      (gaugeFill (info.usedSize SYSTEM_MEDIATYPE_TWL_PHOTO)
        (info.totalSize SYSTEM_MEDIATYPE_TWL_PHOTO)) 8
      Colour.guiSelectorColour,
    DrawCmd.itemAt 285 145 "TWL Photo:" "",
    DrawCmd.itemAt 285 166 "可用:" (info.freeSizeString SYSTEM_MEDIATYPE_TWL_PHOTO),
    DrawCmd.itemAt 285 182 "已用:" (info.usedSizeString SYSTEM_MEDIATYPE_TWL_PHOTO),
    DrawCmd.itemAt 285 198 "容量:" (info.totalSizeString SYSTEM_MEDIATYPE_TWL_PHOTO),
    DrawCmd.image "driveIcon" 220 135 ]

/-- The widths of the filled bars a page draws: the rectangles in the selector
colour, in drawing order. -/
def filledBarWidths : List DrawCmd → List FVal
  | [] => []
  | DrawCmd.rect _ _ w _ Colour.guiSelectorColour :: rest => w :: filledBarWidths rest
  | _ :: rest => filledBarWidths rest

/-- The `MiscInfoPage` renderer.  The percentage is
`static_cast<float>(wifiStrength * 33.33)`: the `double` product with the
`double` constant 33.33, converted to `float`. -/
def MiscInfoPage (info : MiscInfo) (displayInfo : Bool) (live : Live) : List DrawCmd :=
  [ DrawCmd.itemf 1 "已安装内容:" "SD: %lu (NAND: %lu)"
      [Arg.int info.sdTitleCount, Arg.int info.nandTitleCount],
    DrawCmd.itemf 2 "已安装票据:" "%lu" [Arg.int info.ticketCount],
    DrawCmd.itemf 3 "WiFi 信号强度:" "%d (%.0lf%%)"
      [Arg.int live.wifiStrength, Arg.real (toFloat (toDouble ((live.wifiStrength : ℚ) * toDouble (3333 / 100))))],
    DrawCmd.item 4 "IP:" (if displayInfo then live.hostname else "") ]

/-- The `switch (selection)` of `MainMenu` (gui.cpp 484-528). -/
def PageSwitch (selection : Int) (snap : Snapshot) (isNew3DS displayInfo : Bool) (live : Live) :
    List DrawCmd :=
  if selection = KERNEL_INFO_PAGE then KernelInfoPage snap.kernelInfo displayInfo
  else if selection = SYSTEM_INFO_PAGE then SystemInfoPage snap.systemInfo displayInfo
  else if selection = BATTERY_INFO_PAGE then BatteryInfoPage snap.systemStateInfo live
  else if selection = NNID_INFO_PAGE then NNIDInfoPage snap.nnidInfo displayInfo
  else if selection = CONFIG_INFO_PAGE then ConfigInfoPage snap.configInfo displayInfo live
  else if selection = HARDWARE_INFO_PAGE then HardwareInfoPage snap.hardwareInfo isNew3DS live
  else if selection = WIFI_INFO_PAGE then WifiInfoPage snap.wifiInfo displayInfo
  else if selection = STORAGE_INFO_PAGE then StorageInfoPage snap.storageInfo
  else if selection = MISC_INFO_PAGE then MiscInfoPage snap.miscInfo displayInfo live
  else if selection = EXIT_PAGE then
    [ DrawCmd.item 1 "按 select 键隐藏用户隐私信息" "",
      DrawCmd.item 2 "按 L + R 以启动按键测试" "" ]
  else []

/-! ## The sensitive part of a snapshot -/

/-- The snapshot with the fields the renderers gate on `displayInfo` replaced by
the values drawn in their place (`""` or `0`); every other field is kept. -/
def Snapshot.scrub (snap : Snapshot) : Snapshot :=
  { snap with
    kernelInfo := { snap.kernelInfo with sdmcCid := "", nandCid := "", deviceId := 0 }
    systemInfo := { snap.systemInfo with
      localFriendCodeSeed := 0, nandLocalFriendCodeSeed := "", macAddress := "",
      serialNumber := "", checkDigit := 0, soapId := 0 }
    nnidInfo := { persistentID := 0, transferableIdBase := 0, principalID := 0 }
    configInfo := { snap.configInfo with
      birthday := "", parentalPin := "", parentalEmail := "", parentalSecretAnswer := "" }
    wifiInfo := { snap.wifiInfo with passphrase := fun _ => "" } }

/-- The live state with the host name, the one live value gated on
`displayInfo`, replaced by `""`. -/
def Live.scrub (live : Live) : Live := { live with hostname := "" }

/-- A floating value is finite and lies in `[lo, hi]`. -/
def FVal.within (lo hi : ℚ) : FVal → Prop
  | FVal.fin q => lo ≤ q ∧ q ≤ hi
  | FVal.inf => False
  | FVal.nan => False

/-! ## Concrete inputs for the checks below -/

def sampleSnapshot : Snapshot :=
  { kernelInfo := { kernelVersion := "2.57-0", firmVersion := "2.57-0", systemVersion := "11.17.0-50E",
                    initialVersion := "9.0.0-20E", sdmcCid := "CID-A", nandCid := "CID-B",
                    deviceId := 123456 }
    systemInfo := { model := "N3DSXL", hardware := "Retail", region := "EUR", language := "English",
                    localFriendCodeSeed := 77, nandLocalFriendCodeSeed := "4D", macAddress := "AA:BB",
                    serialNumber := "QEF1", checkDigit := 5, soapId := 99 }
    nnidInfo := { persistentID := 1, transferableIdBase := 2, principalID := 3 }
    configInfo := { username := "user", birthday := "01/02", eulaVersion := "1.3",
                    parentalPin := "1234", parentalEmail := "a@b.c", parentalSecretAnswer := "blue" }
    hardwareInfo := { screenUpper := "IPS", screenLower := "TN", soundOutputMode := "Stereo" }
    wifiInfo := { slot := fun _ => true, ssid := fun _ => "home", passphrase := fun _ => "secret",
                  securityMode := fun _ => "WPA2 AES" }
    storageInfo := { usedSize := fun _ => 2, totalSize := fun _ => 1, freeSizeString := fun _ => "0 B",
                     usedSizeString := fun _ => "2 B", totalSizeString := fun _ => "1 B" }
    miscInfo := { sdTitleCount := 10, nandTitleCount := 20, ticketCount := 30 }
    systemStateInfo := { rawButtonState := 0, pmicVendorCode := 1, batteryVendorCode := 2 } }

/-- The sample snapshot with other values in sensitive fields only. -/
def sampleSnapshotOther : Snapshot :=
  { sampleSnapshot with
    kernelInfo := { sampleSnapshot.kernelInfo with sdmcCid := "CID-X", deviceId := 654321 }
    systemInfo := { sampleSnapshot.systemInfo with macAddress := "CC:DD", checkDigit := 7 }
    nnidInfo := { persistentID := 4, transferableIdBase := 5, principalID := 6 }
    configInfo := { sampleSnapshot.configInfo with parentalPin := "0000" }
    wifiInfo := { sampleSnapshot.wifiInfo with passphrase := fun _ => "other" } }

/-- A storage record with half of each medium used. -/
def sampleStorageHalf : StorageInfo :=
  { usedSize := fun _ => 1, totalSize := fun _ => 2, freeSizeString := fun _ => "1 B",
    usedSizeString := fun _ => "1 B", totalSizeString := fun _ => "2 B" }

def sampleLive : Live :=
  { batteryLevel := ⟨0, 0, 50⟩, batteryChargeState := ⟨0, 0, 1⟩, batteryVoltage := ⟨0, 0, 200⟩,
    batteryTemperature := ⟨0, 0, 20⟩, adapterState := ⟨0, 0, 1⟩, fwVerHigh := ⟨0, 0, 19⟩,
    fwVerLow := ⟨0, 0, 56⟩, powersaveStatus := "on", audioJackStatus := false,
    cardSlotStatus := true, sdInserted := true, brightness := 3, autoBrightnessStatus := "off",
    wifiStrength := 3, hostname := "192.168.0.2" }

/-- A live state in which every battery-page request fails at
`svcSendSyncRequest`, so no out parameter is written. -/
def sampleLiveFailed : Live :=
  { sampleLive with
    batteryLevel := ⟨-1, 0, 0⟩, batteryChargeState := ⟨-1, 0, 0⟩, batteryVoltage := ⟨-1, 0, 0⟩,
    batteryTemperature := ⟨-1, 0, 0⟩, adapterState := ⟨-1, 0, 0⟩, fwVerHigh := ⟨-1, 0, 0⟩,
    fwVerLow := ⟨-1, 0, 0⟩ }

/-- The number a `%u` conversion prints for an `int` argument: the argument
read as a 32-bit unsigned value. -/
def printfUnsigned (v : Int) : Nat := (v % 2 ^ 32).toNat

/-! ## Start-up and shutdown (gui.cpp 50-99) -/

/-- The resources that the start-up calls bring up and the shutdown calls take
down. -/
inductive Subsystem
  | romfs
  | gfx
  | C3D
  | C2D
  | font
  | guiStaticBuf
  | guiDynamicBuf
  | guiSizeBuf
  | textures
  | log
  | mcuHwc
  | ptmu
  | cfgu
  | dsp
  | soc
  | am
  | ac
deriving DecidableEq, Repr

/-- The calls made by `GUI::Init`, `GUI::Exit`, `Service::Init` and
`Service::Exit`. -/
inductive Call
  | romfsInit
  | gfxInitDefault
  | C3D_Init
  | C2D_Init
  | C2D_Prepare
  | C2D_FontLoad
  | C2D_CreateScreenTarget_TOP
  | C2D_CreateScreenTarget_BOTTOM
  | C2D_TextBufNew_guiStaticBuf
  | C2D_TextBufNew_guiDynamicBuf
  | C2D_TextBufNew_guiSizeBuf
  | Textures_Init
  | Log_Open
  | mcuHwcInit
  | ptmuInit
  | cfguInit
  | dspInit
  | socInit
  | amInit
  | acInit
  | socExit
  | dspExit
  | cfguExit
  | ptmuExit
  | mcuHwcExit
  | Log_Close
  | Textures_Exit
  | C2D_TextBufDelete_guiSizeBuf
  | C2D_TextBufDelete_guiDynamicBuf
  | C2D_TextBufDelete_guiStaticBuf
  | C2D_FontFree
  | C2D_Fini
  | C3D_Fini
  | gfxExit
  | romfsExit
  | amExit
  | acExit
deriving DecidableEq, Repr

/-- The subsystem a call brings up, if it is an initialisation call. -/
def Call.acquires : Call → Option Subsystem
  | Call.romfsInit => some Subsystem.romfs
  | Call.gfxInitDefault => some Subsystem.gfx
  | Call.C3D_Init => some Subsystem.C3D
  | Call.C2D_Init => some Subsystem.C2D
  | Call.C2D_FontLoad => some Subsystem.font
  | Call.C2D_TextBufNew_guiStaticBuf => some Subsystem.guiStaticBuf
  | Call.C2D_TextBufNew_guiDynamicBuf => some Subsystem.guiDynamicBuf
  | Call.C2D_TextBufNew_guiSizeBuf => some Subsystem.guiSizeBuf
  | Call.Textures_Init => some Subsystem.textures
  | Call.Log_Open => some Subsystem.log
  | Call.mcuHwcInit => some Subsystem.mcuHwc
  | Call.ptmuInit => some Subsystem.ptmu
  | Call.cfguInit => some Subsystem.cfgu
  | Call.dspInit => some Subsystem.dsp
  | Call.socInit => some Subsystem.soc
  | Call.amInit => some Subsystem.am
  | Call.acInit => some Subsystem.ac
  | _ => none

/-- The subsystem a call takes down, if it is a teardown call. -/
def Call.releases : Call → Option Subsystem
  | Call.socExit => some Subsystem.soc
  | Call.dspExit => some Subsystem.dsp
  | Call.cfguExit => some Subsystem.cfgu
  | Call.ptmuExit => some Subsystem.ptmu
  | Call.mcuHwcExit => some Subsystem.mcuHwc
  | Call.Log_Close => some Subsystem.log
  | Call.Textures_Exit => some Subsystem.textures
  | Call.C2D_TextBufDelete_guiSizeBuf => some Subsystem.guiSizeBuf
  | Call.C2D_TextBufDelete_guiDynamicBuf => some Subsystem.guiDynamicBuf
  | Call.C2D_TextBufDelete_guiStaticBuf => some Subsystem.guiStaticBuf
  | Call.C2D_FontFree => some Subsystem.font
  | Call.C2D_Fini => some Subsystem.C2D
  | Call.C3D_Fini => some Subsystem.C3D
  | Call.gfxExit => some Subsystem.gfx
  | Call.romfsExit => some Subsystem.romfs
  | Call.amExit => some Subsystem.am
  | Call.acExit => some Subsystem.ac
  | _ => none

/-- The calls of `GUI::Init` in order, for a build with `BUILD_DEBUG` and
`BUILD_CITRA` defined or not. -/
def Init (BUILD_DEBUG BUILD_CITRA : Bool) : List Call :=
  [ Call.romfsInit, Call.gfxInitDefault, Call.C3D_Init, Call.C2D_Init, Call.C2D_Prepare,
    Call.C2D_FontLoad, Call.C2D_CreateScreenTarget_TOP, Call.C2D_CreateScreenTarget_BOTTOM,
    Call.C2D_TextBufNew_guiStaticBuf, Call.C2D_TextBufNew_guiDynamicBuf,
    Call.C2D_TextBufNew_guiSizeBuf, Call.Textures_Init ]
  ++ (if BUILD_DEBUG then [Call.Log_Open] else [])
  ++ (if BUILD_CITRA then [] else [Call.mcuHwcInit])
  ++ [ Call.ptmuInit, Call.cfguInit, Call.dspInit, Call.socInit ]

/-- The calls of `GUI::Exit` in order, for the same build variants. -/
def Exit (BUILD_DEBUG BUILD_CITRA : Bool) : List Call :=
  [ Call.socExit, Call.dspExit, Call.cfguExit, Call.ptmuExit ]
  ++ (if BUILD_CITRA then [] else [Call.mcuHwcExit])
  ++ (if BUILD_DEBUG then [Call.Log_Close] else [])
  ++ [ Call.Textures_Exit, Call.C2D_TextBufDelete_guiSizeBuf,
       Call.C2D_TextBufDelete_guiDynamicBuf, Call.C2D_TextBufDelete_guiStaticBuf,
       Call.C2D_FontFree, Call.C2D_Fini, Call.C3D_Fini, Call.gfxExit, Call.romfsExit ]

end GUI

namespace Service

/-- The calls of `Service::Init` (service.cpp 29-33). -/
def Init : List GUI.Call := [GUI.Call.amInit, GUI.Call.acInit, GUI.Call.cfguInit]

/-- The calls of `Service::Exit` (service.cpp 35-39). -/
def Exit : List GUI.Call := [GUI.Call.acExit, GUI.Call.cfguExit, GUI.Call.amExit]

end Service

namespace Wifi

/-- Modelled from the spec: the mode values that the query `ACI::GetSecurityMode`,
which is not among the sources, can store in `mode`: the eight modes 0..7 that
the name table of `Wifi::GetSecurityMode` lists (libctru's `acSecurityMode`). -/
inductive acSecurityMode
  | AC_OPEN
  | AC_WEP_40BIT
  | AC_WEP_104BIT
  | AC_WEP_128BIT
  | AC_WPA_TKIP
  | AC_WPA2_TKIP
  | AC_WPA_AES
  | AC_WPA2_AES
deriving DecidableEq, Repr

/-- The integer value of an enumerator, used as the array index. -/
def acSecurityMode.toNat : acSecurityMode → Nat
  | acSecurityMode.AC_OPEN => 0
  | acSecurityMode.AC_WEP_40BIT => 1
  | acSecurityMode.AC_WEP_104BIT => 2
  | acSecurityMode.AC_WEP_128BIT => 3
  | acSecurityMode.AC_WPA_TKIP => 4
  | acSecurityMode.AC_WPA2_TKIP => 5
  | acSecurityMode.AC_WPA_AES => 6
  | acSecurityMode.AC_WPA2_AES => 7

/-- The function `Wifi::GetSSID` (wifi.cpp 8-18), given the return value of
`ACI_GetNetworkWirelessEssidSecuritySsid` and the buffer it filled. -/
def GetSSID (ret : Int) (ssid : String) : String :=
  if GUI.R_FAILED ret then "未知" else ssid

/-- The function `Wifi::GetPassphrase` (wifi.cpp 20-30), given the return value
of `ACI::GetPassphrase` and the buffer it filled. -/
def GetPassphrase (ret : Int) (passphrase : String) : String :=
  if GUI.R_FAILED ret then "未知" else passphrase

/-- The local table `securityMode` of `Wifi::GetSecurityMode`. -/
def securityMode : List String :=
  [ "未加密", "WEP 40-bit", "WEP 104-bit", "WEP 128-bit", "WPA TKIP", "WPA2 TKIP", "WPA AES",
    "WPA2 AES" ]

/-- The function `Wifi::GetSecurityMode` (wifi.cpp 32-53), given the return
value of `ACI::GetSecurityMode` and the value of `mode` after the call.  The
source indexes the table without a range test; an index past the table has no
defined result and gives `none`. -/
def GetSecurityMode (ret : Int) (mode : Nat) : Option String :=
  if GUI.R_FAILED ret then some "未知" else securityMode.get? mode

end Wifi

namespace GUI

/-! ## Lemmas on the selection update -/

theorem wrapSelection_range (x : Int) : 0 ≤ wrapSelection x ∧ wrapSelection x ≤ 9 := by
  simp only [wrapSelection, EXIT_PAGE, KERNEL_INFO_PAGE]
  split_ifs <;> omega

theorem wrapSelection_id (x : Int) (h0 : 0 ≤ x) (h9 : x ≤ 9) : wrapSelection x = x := by
  simp only [wrapSelection, EXIT_PAGE, KERNEL_INFO_PAGE]
  split_ifs <;> omega

theorem MainMenuStep_range (s : MenuState) (kDown kHeld : Nat) :
    0 ≤ (MainMenuStep s kDown kHeld).1.selection ∧ (MainMenuStep s kDown kHeld).1.selection ≤ 9 :=
  wrapSelection_range _

theorem MainMenuLoop_frames_range (its : List Iteration) :
    ∀ s : MenuState, 0 ≤ s.selection → s.selection ≤ 9 →
      (∀ fr ∈ (MainMenuLoop s its).1, 0 ≤ fr.page ∧ fr.page ≤ 9) ∧
      0 ≤ (MainMenuLoop s its).2.selection ∧ (MainMenuLoop s its).2.selection ≤ 9 := by
  induction its with
  | nil => intro s h0 h9; simp [MainMenuLoop, h0, h9]
  | cons it rest ih =>
    intro s h0 h9
    simp only [MainMenuLoop]
    split_ifs with ha ht hb
    · simp [h0, h9]
    · have hr := MainMenuStep_range
        { s with buttonTestEnabled := (ButtonTester s.buttonTestEnabled s.homeAllowed it.tester).1.enabled,
                 homeAllowed := (ButtonTester s.buttonTestEnabled s.homeAllowed it.tester).1.homeAllowed }
        it.kDown it.kHeld
      simp [h0, h9, hr.1, hr.2]
    · have hr := MainMenuStep_range
        { s with buttonTestEnabled := (ButtonTester s.buttonTestEnabled s.homeAllowed it.tester).1.enabled,
                 homeAllowed := (ButtonTester s.buttonTestEnabled s.homeAllowed it.tester).1.homeAllowed }
        it.kDown it.kHeld
      have h := ih _ hr.1 hr.2
      refine ⟨?_, h.2⟩
      intro fr hfr
      rcases List.mem_cons.1 hfr with h1 | h1
      · subst h1; exact ⟨h0, h9⟩
      · exact h.1 fr h1
    · simp [h0, h9]

/-- C1: from a selection in 0..9, a step with Down newly pressed selects
`(s + 1) mod 10`, and a step with Up newly pressed and Down not pressed selects
`(s - 1) mod 10`. -/
theorem C1_selection_wraps (s : MenuState) (kDown kHeld : Nat)
    (h0 : 0 ≤ s.selection) (h9 : s.selection ≤ 9) :
    (pressed kDown KEY_DOWN = true →
        (MainMenuStep s kDown kHeld).1.selection = (s.selection + 1) % 10) ∧
    (pressed kDown KEY_DOWN = false → pressed kDown KEY_UP = true →
        (MainMenuStep s kDown kHeld).1.selection = (s.selection - 1) % 10) := by
  constructor
  · intro hd
    simp only [MainMenuStep, moveSelection, wrapSelection, hd, if_true, EXIT_PAGE,
      KERNEL_INFO_PAGE]
    split_ifs <;> omega
  · intro hd hu
    simp only [MainMenuStep, moveSelection, wrapSelection, hd, hu, if_true, EXIT_PAGE,
      KERNEL_INFO_PAGE, Bool.false_eq_true, if_false]
    split_ifs <;> omega

/-- C1 at the two wrap points: Up on page 0 selects the Exit page, Down on the
Exit page selects page 0. -/
theorem C1_selection_wraps_witness :
    (MainMenuStep ⟨0, true, false, true⟩ KEY_UP KEY_UP).1.selection = 9 ∧
    (MainMenuStep ⟨9, true, false, true⟩ KEY_DOWN KEY_DOWN).1.selection = 0 :=
  ⟨(C1_selection_wraps ⟨0, true, false, true⟩ KEY_UP KEY_UP (by decide) (by decide)).2
      (by decide) (by decide),
   (C1_selection_wraps ⟨9, true, false, true⟩ KEY_DOWN KEY_DOWN (by decide) (by decide)).1
      (by decide)⟩

/-- C2: every frame rendered by `MainMenu`, whatever the passes it is fed,
dispatches a page and draws the selector bar with `0 ≤ selection ≤ EXIT_PAGE`,
and the selection left at the end is in that range too. -/
theorem C2_selection_in_range (homeAllowed : Bool) (its : List Iteration) :
    (∀ fr ∈ (MainMenu homeAllowed its).1, 0 ≤ fr.page ∧ fr.page ≤ EXIT_PAGE) ∧
    0 ≤ (MainMenu homeAllowed its).2.selection ∧
    (MainMenu homeAllowed its).2.selection ≤ EXIT_PAGE :=
  MainMenuLoop_frames_range its (MainMenuInit homeAllowed) (by simp [MainMenuInit])
    (by simp [MainMenuInit])

/-- C2 on a run that presses Up on page 0: the second frame shows page 9, which
is in range. -/
theorem C2_selection_in_range_witness :
    (⟨9, true⟩ : Frame) ∈
        (MainMenu true [⟨true, [], KEY_UP, KEY_UP⟩, ⟨true, [], 0, 0⟩]).1 ∧
      (0 : Int) ≤ (⟨9, true⟩ : Frame).page ∧ (⟨9, true⟩ : Frame).page ≤ EXIT_PAGE :=
  ⟨by decide,
   (C2_selection_in_range true [⟨true, [], KEY_UP, KEY_UP⟩, ⟨true, [], 0, 0⟩]).1 ⟨9, true⟩
     (by decide)⟩

/-! ## Lemmas on the button tester loop -/

theorem ButtonTesterLoop_disabled (t : TesterState) (h : t.enabled = false) (ps : List Poll) :
    ButtonTesterLoop t ps = (t, ps) := by
  cases ps with
  | nil => rfl
  | cons p ps => simp [ButtonTesterLoop, h]

theorem ButtonTesterLoop_no_chord (ps : List Poll) :
    ∀ t : TesterState, t.enabled = true → (∀ q ∈ ps, chordLR q.kDown q.kHeld = false) →
      (ButtonTesterLoop t ps).1.enabled = true ∧
      (ButtonTesterLoop t ps).1.homeAllowed = t.homeAllowed ∧
      (ButtonTesterLoop t ps).2 = [] := by
  induction ps with
  | nil => intro t h _; simp [ButtonTesterLoop, h]
  | cons p ps ih =>
    intro t h hq
    have hp : chordLR p.kDown p.kHeld = false := hq p (List.mem_cons_self _ _)
    have hrest : ∀ q ∈ ps, chordLR q.kDown q.kHeld = false :=
      fun q hmem => hq q (List.mem_cons_of_mem _ hmem)
    have hstep := ih (ButtonTesterFrame t p) (by simp [ButtonTesterFrame, hp, h]) hrest
    simp only [ButtonTesterLoop, h, if_true]
    refine ⟨hstep.1, ?_, hstep.2.2⟩
    rw [hstep.2.1]
    simp [ButtonTesterFrame, hp]

theorem ButtonTesterLoop_first_chord (pre : List Poll) (p : Poll) (post : List Poll) :
    ∀ t : TesterState, t.enabled = true → (∀ q ∈ pre, chordLR q.kDown q.kHeld = false) →
      chordLR p.kDown p.kHeld = true →
      (ButtonTesterLoop t (pre ++ p :: post)).1.enabled = false ∧
      (ButtonTesterLoop t (pre ++ p :: post)).1.homeAllowed = true ∧
      (ButtonTesterLoop t (pre ++ p :: post)).2 = post := by
  induction pre with
  | nil =>
    intro t h _ hp
    have hd : (ButtonTesterFrame t p).enabled = false := by simp [ButtonTesterFrame, hp]
    simp only [List.nil_append, ButtonTesterLoop, h, if_true]
    rw [ButtonTesterLoop_disabled _ hd]
    simp [ButtonTesterFrame, hp]
  | cons q pre ih =>
    intro t h hq hp
    have hq0 : chordLR q.kDown q.kHeld = false := hq q (List.mem_cons_self _ _)
    have hrest : ∀ r ∈ pre, chordLR r.kDown r.kHeld = false :=
      fun r hmem => hq r (List.mem_cons_of_mem _ hmem)
    simp only [List.cons_append, ButtonTesterLoop, h, if_true]
    exact ih (ButtonTesterFrame t q) (by simp [ButtonTesterFrame, hq0, h]) hrest hp

/-- C7: the `break` of a `MainMenu` step is taken exactly when Start is newly
pressed, or A is newly pressed and the selection tested at line 571 is the Exit
page (which, without Up or Down, is the page the step started on); a pass that
breaks ends the loop (no later pass is run) and a pass that does not break goes
on to the next pass. -/
theorem C7_exit_condition (s : MenuState) (kDown kHeld : Nat) (rest : List Iteration) :
    ((MainMenuStep s kDown kHeld).2 = true ↔
      (pressed kDown KEY_START = true ∨
        (pressed kDown KEY_A = true ∧ (MainMenuStep s kDown kHeld).1.selection = EXIT_PAGE))) ∧
    (pressed kDown KEY_DOWN = false → pressed kDown KEY_UP = false →
      0 ≤ s.selection → s.selection ≤ 9 →
      ((MainMenuStep s kDown kHeld).2 = true ↔
        (pressed kDown KEY_START = true ∨
          (pressed kDown KEY_A = true ∧ s.selection = EXIT_PAGE)))) ∧
    ((MainMenuStep { s with buttonTestEnabled := false } kDown kHeld).2 = true →
      MainMenuLoop { s with buttonTestEnabled := false } (⟨true, [], kDown, kHeld⟩ :: rest) =
        ([⟨s.selection, s.displayInfo⟩],
         (MainMenuStep { s with buttonTestEnabled := false } kDown kHeld).1)) ∧
    ((MainMenuStep { s with buttonTestEnabled := false } kDown kHeld).2 = false →
      MainMenuLoop { s with buttonTestEnabled := false } (⟨true, [], kDown, kHeld⟩ :: rest) =
        (⟨s.selection, s.displayInfo⟩ ::
          (MainMenuLoop (MainMenuStep { s with buttonTestEnabled := false } kDown kHeld).1 rest).1,
         (MainMenuLoop (MainMenuStep { s with buttonTestEnabled := false } kDown kHeld).1 rest).2)) := by
  refine ⟨?_, ?_, ?_, ?_⟩
  · simp [MainMenuStep]
  · intro hd hu h0 h9
    simp [MainMenuStep, moveSelection, hd, hu, wrapSelection_id _ h0 h9]
  · intro h
    simp [MainMenuLoop, ButtonTester, ButtonTesterLoop, h]
  · intro h
    simp [MainMenuLoop, ButtonTester, ButtonTesterLoop, h]

/-- C7 on page 3: Start ends the loop before the second pass, while A alone
does not, so the second pass is rendered; on the Exit page A alone breaks. -/
theorem C7_exit_condition_witness :
    MainMenuLoop ⟨3, true, false, true⟩ [⟨true, [], KEY_START, KEY_START⟩, ⟨true, [], 0, 0⟩] =
        ([⟨3, true⟩], ⟨3, true, false, true⟩) ∧
    MainMenuLoop ⟨3, true, false, true⟩ [⟨true, [], KEY_A, KEY_A⟩, ⟨true, [], 0, 0⟩] =
        ([⟨3, true⟩, ⟨3, true⟩], ⟨3, true, false, true⟩) ∧
    (MainMenuStep ⟨9, true, false, true⟩ KEY_A KEY_A).2 = true :=
  ⟨(C7_exit_condition ⟨3, true, false, true⟩ KEY_START KEY_START [⟨true, [], 0, 0⟩]).2.2.1
      (by decide),
   (C7_exit_condition ⟨3, true, false, true⟩ KEY_A KEY_A [⟨true, [], 0, 0⟩]).2.2.2 (by decide),
   ((C7_exit_condition ⟨9, true, false, true⟩ KEY_A KEY_A []).2.1 (by decide) (by decide)
      (by decide) (by decide)).2 (Or.inr ⟨by decide, by decide⟩)⟩

/-- C8 fails on the Exit page: with the selection on the Exit page before and
after the step, L held and R newly pressed sets `buttonTestEnabled`. -/
theorem C8_counterexample :
    (MainMenuStep ⟨EXIT_PAGE, true, false, true⟩ KEY_R (KEY_L ||| KEY_R)).1.selection = EXIT_PAGE ∧
    (MainMenuStep ⟨EXIT_PAGE, true, false, true⟩ KEY_R (KEY_L ||| KEY_R)).1.buttonTestEnabled
      = true := by
  decide

/-- C8 (amended): on every page, the Exit page included, a step with L held and
R newly pressed, or R held and L newly pressed, sets `buttonTestEnabled` and
disallows HOME; a step without that chord leaves both unchanged. -/
theorem C8_chord_sets_button_test (s : MenuState) (kDown kHeld : Nat) :
    (((pressed kHeld KEY_L = true ∧ pressed kDown KEY_R = true) ∨
        (pressed kHeld KEY_R = true ∧ pressed kDown KEY_L = true)) →
      (MainMenuStep s kDown kHeld).1.buttonTestEnabled = true ∧
      (MainMenuStep s kDown kHeld).1.homeAllowed = false) ∧
    (¬ ((pressed kHeld KEY_L = true ∧ pressed kDown KEY_R = true) ∨
        (pressed kHeld KEY_R = true ∧ pressed kDown KEY_L = true)) →
      (MainMenuStep s kDown kHeld).1.buttonTestEnabled = s.buttonTestEnabled ∧
      (MainMenuStep s kDown kHeld).1.homeAllowed = s.homeAllowed) := by
  constructor
  · intro h
    have hc : chordLR kDown kHeld = true := by simpa [chordLR] using h
    simp [MainMenuStep, hc]
  · intro h
    have hc : chordLR kDown kHeld = false := by
      cases hch : chordLR kDown kHeld with
      | false => rfl
      | true => exact absurd (by simpa [chordLR] using hch) h
    simp [MainMenuStep, hc]

/-- C8 (amended) on page 0 with R held and L newly pressed, and on the Exit page
with only R newly pressed. -/
theorem C8_chord_sets_button_test_witness :
    ((MainMenuStep ⟨0, true, false, true⟩ KEY_L (KEY_L ||| KEY_R)).1.buttonTestEnabled = true ∧
      (MainMenuStep ⟨0, true, false, true⟩ KEY_L (KEY_L ||| KEY_R)).1.homeAllowed = false) ∧
    ((MainMenuStep ⟨9, true, false, true⟩ KEY_R KEY_R).1.buttonTestEnabled = false ∧
      (MainMenuStep ⟨9, true, false, true⟩ KEY_R KEY_R).1.homeAllowed = true) :=
  ⟨(C8_chord_sets_button_test ⟨0, true, false, true⟩ KEY_L (KEY_L ||| KEY_R)).1 (by decide),
   (C8_chord_sets_button_test ⟨9, true, false, true⟩ KEY_R KEY_R).2 (by decide)⟩

/-- C9: started with `enabled = true`, `ButtonTester` keeps `enabled` true and
consumes every poll as long as no poll holds the L+R chord; on the first poll
that holds it, `enabled` becomes false, HOME is allowed again, and the polls
after it are left unread; started with `enabled = false` it reads no poll of
any list, with or without a chord, and changes nothing. -/
theorem C9_button_tester_exit (homeAllowed : Bool) (pre post ps : List Poll) (p : Poll) :
    ((∀ q ∈ pre, ¬ ((pressed q.kHeld KEY_L = true ∧ pressed q.kDown KEY_R = true) ∨
          (pressed q.kHeld KEY_R = true ∧ pressed q.kDown KEY_L = true))) →
      (ButtonTester true homeAllowed pre).1.enabled = true ∧
      (ButtonTester true homeAllowed pre).1.homeAllowed = homeAllowed ∧
      (ButtonTester true homeAllowed pre).2 = []) ∧
    ((∀ q ∈ pre, ¬ ((pressed q.kHeld KEY_L = true ∧ pressed q.kDown KEY_R = true) ∨
          (pressed q.kHeld KEY_R = true ∧ pressed q.kDown KEY_L = true))) →
      ((pressed p.kHeld KEY_L = true ∧ pressed p.kDown KEY_R = true) ∨
          (pressed p.kHeld KEY_R = true ∧ pressed p.kDown KEY_L = true)) →
      (ButtonTester true homeAllowed (pre ++ p :: post)).1.enabled = false ∧
      (ButtonTester true homeAllowed (pre ++ p :: post)).1.homeAllowed = true ∧
      (ButtonTester true homeAllowed (pre ++ p :: post)).2 = post) ∧
    ButtonTester false homeAllowed ps = (⟨false, homeAllowed, 0, 0⟩, ps) := by
  have hno : (∀ q ∈ pre, ¬ ((pressed q.kHeld KEY_L = true ∧ pressed q.kDown KEY_R = true) ∨
        (pressed q.kHeld KEY_R = true ∧ pressed q.kDown KEY_L = true))) →
      ∀ q ∈ pre, chordLR q.kDown q.kHeld = false := by
    intro hpre q hq
    cases hch : chordLR q.kDown q.kHeld with
    | false => rfl
    | true => exact absurd (by simpa [chordLR] using hch) (hpre q hq)
  refine ⟨?_, ?_, ?_⟩
  · intro hpre
    exact ButtonTesterLoop_no_chord pre _ rfl (hno hpre)
  · intro hpre hp
    have hp2 : chordLR p.kDown p.kHeld = true := by simpa [chordLR] using hp
    exact ButtonTesterLoop_first_chord pre p post _ rfl (hno hpre) hp2
  · exact ButtonTesterLoop_disabled _ rfl _

/-- C9 on three polls: a touch, then L held with R newly pressed, then one more
poll that is never read; and, started disabled, on a chord-free list of which
no poll is read. -/
theorem C9_button_tester_exit_witness :
    ((ButtonTester true false [⟨0, KEY_TOUCH, 10, 20⟩]).1.enabled = true ∧
      (ButtonTester true false [⟨0, KEY_TOUCH, 10, 20⟩]).1.homeAllowed = false ∧
      (ButtonTester true false [⟨0, KEY_TOUCH, 10, 20⟩]).2 = []) ∧
    ((ButtonTester true false ([⟨0, KEY_TOUCH, 10, 20⟩] ++
        ⟨KEY_R, KEY_L ||| KEY_R, 0, 0⟩ :: [⟨KEY_A, KEY_A, 0, 0⟩])).1.enabled = false ∧
      (ButtonTester true false ([⟨0, KEY_TOUCH, 10, 20⟩] ++
        ⟨KEY_R, KEY_L ||| KEY_R, 0, 0⟩ :: [⟨KEY_A, KEY_A, 0, 0⟩])).1.homeAllowed = true ∧
      (ButtonTester true false ([⟨0, KEY_TOUCH, 10, 20⟩] ++
        ⟨KEY_R, KEY_L ||| KEY_R, 0, 0⟩ :: [⟨KEY_A, KEY_A, 0, 0⟩])).2 = [⟨KEY_A, KEY_A, 0, 0⟩]) ∧
    ButtonTester false false [⟨0, KEY_TOUCH, 10, 20⟩, ⟨KEY_A, KEY_A, 0, 0⟩] =
      (⟨false, false, 0, 0⟩, [⟨0, KEY_TOUCH, 10, 20⟩, ⟨KEY_A, KEY_A, 0, 0⟩]) :=
  have h := C9_button_tester_exit false [⟨0, KEY_TOUCH, 10, 20⟩] [⟨KEY_A, KEY_A, 0, 0⟩]
    [⟨0, KEY_TOUCH, 10, 20⟩, ⟨KEY_A, KEY_A, 0, 0⟩] ⟨KEY_R, KEY_L ||| KEY_R, 0, 0⟩
  ⟨h.1 (by decide), h.2.1 (by decide) (by decide), h.2.2⟩

/-- C10: a step with Select newly pressed negates `displayInfo`, a step without
it leaves `displayInfo` unchanged; from a selection in 0..9, a step with Select
and without Down, Up or the L+R chord changes nothing else, so two such steps
in a row give back the state they started from; `displayInfo` starts true. -/
theorem C10_select_toggles (s : MenuState) (kDown kHeld kDown2 kHeld2 : Nat)
    (h0 : 0 ≤ s.selection) (h9 : s.selection ≤ 9) :
    (pressed kDown KEY_SELECT = true →
      (MainMenuStep s kDown kHeld).1.displayInfo = !s.displayInfo) ∧
    (pressed kDown KEY_SELECT = false →
      (MainMenuStep s kDown kHeld).1.displayInfo = s.displayInfo) ∧
    (pressed kDown KEY_SELECT = true → pressed kDown KEY_DOWN = false →
      pressed kDown KEY_UP = false → chordLR kDown kHeld = false →
      (MainMenuStep s kDown kHeld).1 = { s with displayInfo := !s.displayInfo }) ∧
    (pressed kDown KEY_SELECT = true → pressed kDown KEY_DOWN = false →
      pressed kDown KEY_UP = false → chordLR kDown kHeld = false →
      pressed kDown2 KEY_SELECT = true → pressed kDown2 KEY_DOWN = false →
      pressed kDown2 KEY_UP = false → chordLR kDown2 kHeld2 = false →
      (MainMenuStep (MainMenuStep s kDown kHeld).1 kDown2 kHeld2).1 = s) ∧
    (∀ homeAllowed, (MainMenuInit homeAllowed).displayInfo = true) := by
  have hstep : ∀ (t : MenuState) (kd kh : Nat), 0 ≤ t.selection → t.selection ≤ 9 →
      pressed kd KEY_SELECT = true → pressed kd KEY_DOWN = false →
      pressed kd KEY_UP = false → chordLR kd kh = false →
      (MainMenuStep t kd kh).1 = { t with displayInfo := !t.displayInfo } := by
    intro t kd kh t0 t9 hs hd hu hc
    simp [MainMenuStep, moveSelection, hs, hd, hu, hc, wrapSelection_id _ t0 t9]
  refine ⟨?_, ?_, ?_, ?_, ?_⟩
  · intro hs; simp [MainMenuStep, hs]
  · intro hs; simp [MainMenuStep, hs]
  · exact hstep s kDown kHeld h0 h9
  · intro hs hd hu hc hs2 hd2 hu2 hc2
    rw [hstep s kDown kHeld h0 h9 hs hd hu hc]
    rw [hstep { s with displayInfo := !s.displayInfo } kDown2 kHeld2 h0 h9 hs2 hd2 hu2 hc2]
    simp
  · intro homeAllowed; rfl

/-- C10 on page 4 with Select pressed twice: the flag goes true, false, true
and the state returns to where it started. -/
theorem C10_select_toggles_witness :
    (MainMenuStep ⟨4, true, false, true⟩ KEY_SELECT KEY_SELECT).1 = ⟨4, false, false, true⟩ ∧
    (MainMenuStep (MainMenuStep ⟨4, true, false, true⟩ KEY_SELECT KEY_SELECT).1
        KEY_SELECT KEY_SELECT).1 = ⟨4, true, false, true⟩ ∧
    (MainMenuStep ⟨4, true, false, true⟩ KEY_A KEY_A).1.displayInfo = true :=
  ⟨(C10_select_toggles ⟨4, true, false, true⟩ KEY_SELECT KEY_SELECT KEY_SELECT KEY_SELECT
      (by decide) (by decide)).2.2.1 (by decide) (by decide) (by decide) (by decide),
   (C10_select_toggles ⟨4, true, false, true⟩ KEY_SELECT KEY_SELECT KEY_SELECT KEY_SELECT
      (by decide) (by decide)).2.2.2.1 (by decide) (by decide) (by decide) (by decide)
      (by decide) (by decide) (by decide) (by decide),
   (C10_select_toggles ⟨4, true, false, true⟩ KEY_A KEY_A 0 0
      (by decide) (by decide)).2.1 (by decide)⟩

/-! ## Lemmas on redaction -/

theorem PageSwitch_redacted_scrub (p : Int) (snap : Snapshot) (isNew3DS : Bool) (live : Live) :
    PageSwitch p snap isNew3DS false live = PageSwitch p snap.scrub isNew3DS false live.scrub := by
  have h0 : KernelInfoPage snap.kernelInfo false = KernelInfoPage snap.scrub.kernelInfo false := by
    simp only [KernelInfoPage, Snapshot.scrub, Bool.false_eq_true, if_false]
  have h1 : SystemInfoPage snap.systemInfo false = SystemInfoPage snap.scrub.systemInfo false := by
    simp only [SystemInfoPage, Snapshot.scrub, Bool.false_eq_true, if_false]
  have h2 : BatteryInfoPage snap.systemStateInfo live =
      BatteryInfoPage snap.scrub.systemStateInfo live.scrub := by
    simp only [BatteryInfoPage, Snapshot.scrub, Live.scrub]
  have h3 : NNIDInfoPage snap.nnidInfo false = NNIDInfoPage snap.scrub.nnidInfo false := by
    simp only [NNIDInfoPage, Snapshot.scrub, Bool.false_eq_true, if_false]
  have h4 : ConfigInfoPage snap.configInfo false live =
      ConfigInfoPage snap.scrub.configInfo false live.scrub := by
    simp only [ConfigInfoPage, Snapshot.scrub, Live.scrub, Bool.false_eq_true, if_false]
  have h5 : HardwareInfoPage snap.hardwareInfo isNew3DS live =
      HardwareInfoPage snap.scrub.hardwareInfo isNew3DS live.scrub := by
    simp only [HardwareInfoPage, Snapshot.scrub, Live.scrub]
  have h6 : WifiInfoPage snap.wifiInfo false = WifiInfoPage snap.scrub.wifiInfo false := by
    simp only [WifiInfoPage, WifiSlot, Snapshot.scrub, Bool.false_eq_true, if_false]
  have h7 : StorageInfoPage snap.storageInfo = StorageInfoPage snap.scrub.storageInfo := by
    simp only [Snapshot.scrub]
  have h8 : MiscInfoPage snap.miscInfo false live =
      MiscInfoPage snap.scrub.miscInfo false live.scrub := by
    simp only [MiscInfoPage, Snapshot.scrub, Live.scrub, Bool.false_eq_true, if_false]
  simp only [PageSwitch, h0, h1, h2, h3, h4, h5, h6, h7, h8]

theorem WifiSlot_passphrase_row (info : WifiInfo) (displayInfo : Bool) (i : Fin 3)
    (h : info.slot i = true) :
    DrawCmd.textf 20 (62 + (i.val : Int) * 68) Colour.guiTitleColour "密码: %s (%s)"
        [Arg.str (if displayInfo then info.passphrase i else ""), Arg.str (info.securityMode i)]
      ∈ WifiInfoPage info displayInfo := by
  have hmem : DrawCmd.textf 20 (62 + (i.val : Int) * 68) Colour.guiTitleColour "密码: %s (%s)"
        [Arg.str (if displayInfo then info.passphrase i else ""), Arg.str (info.securityMode i)]
      ∈ WifiSlot info displayInfo i := by
    simp [WifiSlot, h]
  have hi : i = 0 ∨ i = 1 ∨ i = 2 := by
    rcases i with ⟨v, hv⟩
    interval_cases v <;> simp
  unfold WifiInfoPage
  rcases hi with rfl | rfl | rfl
  · exact List.mem_cons_of_mem _ (List.mem_append_left _ (List.mem_append_left _ hmem))
  · exact List.mem_cons_of_mem _ (List.mem_append_left _ (List.mem_append_right _ hmem))
  · exact List.mem_cons_of_mem _ (List.mem_append_right _ hmem)

/-- C3: with the reveal flag false every page draws `""` or `0` in place of
each sensitive field, so two snapshots (and live states) that agree outside the
sensitive fields are drawn identically on every page; with the flag true the
same rows carry the values of the snapshot. -/
theorem C3_redaction (p : Int) (s1 s2 : Snapshot) (isNew3DS : Bool) (live1 live2 : Live)
    (hs : s1.scrub = s2.scrub) (hl : live1.scrub = live2.scrub) :
    PageSwitch p s1 isNew3DS false live1 = PageSwitch p s2 isNew3DS false live2 ∧
    -- kernel page, rows 5-7
    ((PageSwitch KERNEL_INFO_PAGE s1 isNew3DS false live1).drop 4 =
      [ DrawCmd.itemf 5 "SDMC CID:" "" [], DrawCmd.itemf 6 "NAND CID:" "" [],
        DrawCmd.itemf 7 "设备 ID:" "%llu" [Arg.int 0] ] ∧
     (PageSwitch KERNEL_INFO_PAGE s1 isNew3DS true live1).drop 4 =
      [ DrawCmd.itemf 5 "SDMC CID:" s1.kernelInfo.sdmcCid [],
        DrawCmd.itemf 6 "NAND CID:" s1.kernelInfo.nandCid [],
        DrawCmd.itemf 7 "设备 ID:" "%llu" [Arg.int s1.kernelInfo.deviceId] ]) ∧
    -- system page, rows 3-7
    ((PageSwitch SYSTEM_INFO_PAGE s1 isNew3DS false live1).drop 2 =
      [ DrawCmd.itemf 3 "出厂 LFC 种子:" "%010llX" [Arg.int 0],
        DrawCmd.itemf 4 "从 NAND 获取到的 LFC 种子:" "%s" [Arg.str ""],
        DrawCmd.itemf 5 "MAC 地址:" "" [],
        DrawCmd.itemf 6 "序列号:" "%s %d" [Arg.str "", Arg.int 0],
        DrawCmd.itemf 7 "ECS 设备 ID:" "%llu" [Arg.int 0] ] ∧
     (PageSwitch SYSTEM_INFO_PAGE s1 isNew3DS true live1).drop 2 =
      [ DrawCmd.itemf 3 "出厂 LFC 种子:" "%010llX" [Arg.int s1.systemInfo.localFriendCodeSeed],
        DrawCmd.itemf 4 "从 NAND 获取到的 LFC 种子:" "%s"
          [Arg.str s1.systemInfo.nandLocalFriendCodeSeed],
        DrawCmd.itemf 5 "MAC 地址:" s1.systemInfo.macAddress [],
        DrawCmd.itemf 6 "序列号:" "%s %d"
          [Arg.str s1.systemInfo.serialNumber, Arg.int s1.systemInfo.checkDigit],
        DrawCmd.itemf 7 "ECS 设备 ID:" "%llu" [Arg.int s1.systemInfo.soapId] ]) ∧
    -- NNID page, all rows
    (PageSwitch NNID_INFO_PAGE s1 isNew3DS false live1 =
      [ DrawCmd.itemf 1 "持久化 ID:" "%u" [Arg.int 0],
        DrawCmd.itemf 2 "可转移 ID 凭据:" "%llu" [Arg.int 0],
        DrawCmd.itemf 3 "主 ID:" "%u" [Arg.int 0] ] ∧
     PageSwitch NNID_INFO_PAGE s1 isNew3DS true live1 =
      [ DrawCmd.itemf 1 "持久化 ID:" "%u" [Arg.int s1.nnidInfo.persistentID],
        DrawCmd.itemf 2 "可转移 ID 凭据:" "%llu" [Arg.int s1.nnidInfo.transferableIdBase],
        DrawCmd.itemf 3 "主 ID:" "%u" [Arg.int s1.nnidInfo.principalID] ]) ∧
    -- config page, rows 2, 4, 5, 6
    (PageSwitch CONFIG_INFO_PAGE s1 isNew3DS false live1 =
      [ DrawCmd.item 1 "用户昵称:" s1.configInfo.username,
        DrawCmd.item 2 "生日:" "",
        DrawCmd.item 3 "EULA 版本:" s1.configInfo.eulaVersion,
        DrawCmd.item 4 "家长控制 Pin 码:" "",
        DrawCmd.item 5 "家长控制电子邮箱:" "",
        DrawCmd.item 6 "家长控制安全问题答案:" "",
        DrawCmd.item 7 "省电模式:" live1.powersaveStatus ] ∧
     PageSwitch CONFIG_INFO_PAGE s1 isNew3DS true live1 =
      [ DrawCmd.item 1 "用户昵称:" s1.configInfo.username,
        DrawCmd.item 2 "生日:" s1.configInfo.birthday,
        DrawCmd.item 3 "EULA 版本:" s1.configInfo.eulaVersion,
        DrawCmd.item 4 "家长控制 Pin 码:" s1.configInfo.parentalPin,
        DrawCmd.item 5 "家长控制电子邮箱:" s1.configInfo.parentalEmail,
        DrawCmd.item 6 "家长控制安全问题答案:" s1.configInfo.parentalSecretAnswer,
        DrawCmd.item 7 "省电模式:" live1.powersaveStatus ]) ∧
    -- wifi page, the passphrase row of every configured slot
    (∀ i : Fin 3, s1.wifiInfo.slot i = true →
      DrawCmd.textf 20 (62 + (i.val : Int) * 68) Colour.guiTitleColour "密码: %s (%s)"
          [Arg.str "", Arg.str (s1.wifiInfo.securityMode i)]
        ∈ PageSwitch WIFI_INFO_PAGE s1 isNew3DS false live1 ∧
      DrawCmd.textf 20 (62 + (i.val : Int) * 68) Colour.guiTitleColour "密码: %s (%s)"
          [Arg.str (s1.wifiInfo.passphrase i), Arg.str (s1.wifiInfo.securityMode i)]
        ∈ PageSwitch WIFI_INFO_PAGE s1 isNew3DS true live1) ∧
    -- misc page, row 4
    ((PageSwitch MISC_INFO_PAGE s1 isNew3DS false live1).drop 3 = [DrawCmd.item 4 "IP:" ""] ∧
     (PageSwitch MISC_INFO_PAGE s1 isNew3DS true live1).drop 3 =
      [DrawCmd.item 4 "IP:" live1.hostname]) := by
  refine ⟨?_, ⟨rfl, rfl⟩, ⟨rfl, rfl⟩, ⟨rfl, rfl⟩, ⟨rfl, rfl⟩, ?_, ⟨rfl, rfl⟩⟩
  · rw [PageSwitch_redacted_scrub p s1, PageSwitch_redacted_scrub p s2, hs, hl]
  · intro i hi
    exact ⟨WifiSlot_passphrase_row s1.wifiInfo false i hi,
      WifiSlot_passphrase_row s1.wifiInfo true i hi⟩

/-- C3 on the system page: two snapshots and two live states that differ only
in sensitive values are drawn identically when the reveal flag is false. -/
theorem C3_redaction_witness :
    PageSwitch SYSTEM_INFO_PAGE sampleSnapshot true false sampleLive =
      PageSwitch SYSTEM_INFO_PAGE sampleSnapshotOther true false
        { sampleLive with hostname := "10.0.0.1" } :=
  (C3_redaction SYSTEM_INFO_PAGE sampleSnapshot sampleSnapshotOther true sampleLive
    { sampleLive with hostname := "10.0.0.1" } rfl rfl).1

/-! ## The page switch at each page -/

theorem PageSwitch_storage (snap : Snapshot) (n d : Bool) (live : Live) :
    PageSwitch STORAGE_INFO_PAGE snap n d live = StorageInfoPage snap.storageInfo := rfl

theorem roundHalfEven_floor_le (x : ℚ) : ⌊x⌋ ≤ roundHalfEven x := by
  unfold roundHalfEven
  split_ifs <;> omega

theorem roundHalfEven_le_floor_add_one (x : ℚ) : roundHalfEven x ≤ ⌊x⌋ + 1 := by
  unfold roundHalfEven
  split_ifs <;> omega

theorem roundHalfEven_intCast (n : ℤ) : roundHalfEven (n : ℚ) = n := by
  unfold roundHalfEven
  simp

theorem roundHalfEven_mono {x y : ℚ} (h : x ≤ y) : roundHalfEven x ≤ roundHalfEven y := by
  have hf : ⌊x⌋ ≤ ⌊y⌋ := Int.floor_mono h
  rcases lt_or_eq_of_le hf with hlt | heq
  · calc roundHalfEven x ≤ ⌊x⌋ + 1 := roundHalfEven_le_floor_add_one x
      _ ≤ ⌊y⌋ := hlt
      _ ≤ roundHalfEven y := roundHalfEven_floor_le y
  · have hr : x - ⌊x⌋ ≤ y - ⌊y⌋ := by rw [heq]; linarith
    unfold roundHalfEven
    rw [heq]
    split_ifs <;> first | omega | (exfalso; linarith)


theorem log_two_eq_of_bounds {q : ℚ} {e : ℤ} (hq : 0 < q) (h1 : (2 : ℚ) ^ e ≤ q)
    (h2 : q < (2 : ℚ) ^ (e + 1)) : Int.log 2 q = e := by
  have hb : 1 < (2 : ℕ) := by norm_num
  have hle : e ≤ Int.log 2 q := (Int.zpow_le_iff_le_log hb hq).1 (by exact_mod_cast h1)
  have hlt : Int.log 2 q < e + 1 := (Int.lt_zpow_iff_log_lt hb hq).1 (by exact_mod_cast h2)
  omega

theorem zpow_log_two_le {q : ℚ} (hq : 0 < q) : (2 : ℚ) ^ Int.log 2 q ≤ q := by
  have h := Int.zpow_log_le_self (b := 2) (r := q) (by norm_num) hq
  exact_mod_cast h

theorem lt_zpow_log_two_succ (q : ℚ) : q < (2 : ℚ) ^ (Int.log 2 q + 1) := by
  have h := Int.lt_zpow_succ_log_self (b := 2) (by norm_num) q
  exact_mod_cast h

theorem roundBinary_of_pos (k : ℕ) {q : ℚ} (hq : 0 < q) :
    roundBinary (k + 1) q =
      (roundHalfEven (q / 2 ^ (Int.log 2 q - k)) : ℚ) * 2 ^ (Int.log 2 q - k) := by
  unfold roundBinary
  rw [if_neg hq.ne', abs_of_pos hq]
  push_cast
  simp

/-- The scaled significand of a positive number lies in `[2^k, 2^(k+1))`. -/
theorem scaled_bounds (k : ℕ) {q : ℚ} (hq : 0 < q) :
    (2 : ℚ) ^ k ≤ q / 2 ^ (Int.log 2 q - k) ∧ q / 2 ^ (Int.log 2 q - k) < (2 : ℚ) ^ (k + 1) := by
  have h2 : (0 : ℚ) < 2 := by norm_num
  have hs : (0 : ℚ) < 2 ^ (Int.log 2 q - k) := zpow_pos h2 _
  constructor
  · rw [le_div_iff₀ hs]
    have : (2 : ℚ) ^ k * 2 ^ (Int.log 2 q - k) = 2 ^ Int.log 2 q := by
      rw [← zpow_natCast, ← zpow_add₀ h2.ne']
      congr 1
      omega
    rw [this]
    exact zpow_log_two_le hq
  · rw [div_lt_iff₀ hs]
    have : (2 : ℚ) ^ (k + 1) * 2 ^ (Int.log 2 q - k) = 2 ^ (Int.log 2 q + 1) := by
      rw [← zpow_natCast, ← zpow_add₀ h2.ne']
      congr 1
      push_cast
      omega
    rw [this]
    exact lt_zpow_log_two_succ q

theorem roundHalfEven_scaled_bounds (k : ℕ) {q : ℚ} (hq : 0 < q) :
    (2 : ℤ) ^ k ≤ roundHalfEven (q / 2 ^ (Int.log 2 q - k)) ∧
      roundHalfEven (q / 2 ^ (Int.log 2 q - k)) ≤ (2 : ℤ) ^ (k + 1) := by
  obtain ⟨h1, h2⟩ := scaled_bounds k hq
  constructor
  · have := roundHalfEven_mono (x := (((2 : ℤ) ^ k : ℤ) : ℚ)) (by push_cast; exact h1)
    rwa [roundHalfEven_intCast] at this
  · have := roundHalfEven_mono (y := (((2 : ℤ) ^ (k + 1) : ℤ) : ℚ)) (by push_cast; exact h2.le)
    rwa [roundHalfEven_intCast] at this

theorem roundBinary_bounds (k : ℕ) {q : ℚ} (hq : 0 < q) :
    (2 : ℚ) ^ Int.log 2 q ≤ roundBinary (k + 1) q ∧
      roundBinary (k + 1) q ≤ (2 : ℚ) ^ (Int.log 2 q + 1) := by
  have h2 : (0 : ℚ) < 2 := by norm_num
  have hs : (0 : ℚ) < 2 ^ (Int.log 2 q - k) := zpow_pos h2 _
  obtain ⟨h1, h3⟩ := roundHalfEven_scaled_bounds k hq
  rw [roundBinary_of_pos k hq]
  constructor
  · have : (2 : ℚ) ^ Int.log 2 q = (((2 : ℤ) ^ k : ℤ) : ℚ) * 2 ^ (Int.log 2 q - k) := by
      push_cast
      rw [← zpow_natCast, ← zpow_add₀ h2.ne']
      congr 1
      omega
    rw [this]
    exact mul_le_mul_of_nonneg_right (by exact_mod_cast h1) hs.le
  · have : (2 : ℚ) ^ (Int.log 2 q + 1) = (((2 : ℤ) ^ (k + 1) : ℤ) : ℚ) * 2 ^ (Int.log 2 q - k) := by
      push_cast
      rw [← zpow_natCast, ← zpow_add₀ h2.ne']
      congr 1
      push_cast
      omega
    rw [this]
    exact mul_le_mul_of_nonneg_right (by exact_mod_cast h3) hs.le

theorem roundBinary_pos (k : ℕ) {q : ℚ} (hq : 0 < q) : 0 < roundBinary (k + 1) q :=
  lt_of_lt_of_le (zpow_pos (by norm_num) _) (roundBinary_bounds k hq).1

theorem roundBinary_zero (p : ℕ) : roundBinary p 0 = 0 := by
  simp [roundBinary]

theorem roundBinary_mono (k : ℕ) {x y : ℚ} (hx : 0 ≤ x) (h : x ≤ y) :
    roundBinary (k + 1) x ≤ roundBinary (k + 1) y := by
  rcases eq_or_lt_of_le hx with h0 | hx0
  · rw [← h0, roundBinary_zero]
    rcases eq_or_lt_of_le (h0 ▸ h : (0 : ℚ) ≤ y) with hy | hy
    · rw [← hy, roundBinary_zero]
    · exact (roundBinary_pos k hy).le
  · have hy0 : 0 < y := lt_of_lt_of_le hx0 h
    have hlog : Int.log 2 x ≤ Int.log 2 y := Int.log_mono_right hx0 h
    rcases lt_or_eq_of_le hlog with hlt | heq
    · calc roundBinary (k + 1) x ≤ (2 : ℚ) ^ (Int.log 2 x + 1) := (roundBinary_bounds k hx0).2
        _ ≤ (2 : ℚ) ^ Int.log 2 y := zpow_le_zpow_right₀ (by norm_num) (by omega)
        _ ≤ roundBinary (k + 1) y := (roundBinary_bounds k hy0).1
    · rw [roundBinary_of_pos k hx0, roundBinary_of_pos k hy0, heq]
      have hs : (0 : ℚ) < 2 ^ (Int.log 2 y - k) := zpow_pos (by norm_num) _
      apply mul_le_mul_of_nonneg_right _ hs.le
      have : roundHalfEven (x / 2 ^ (Int.log 2 y - k)) ≤ roundHalfEven (y / 2 ^ (Int.log 2 y - k)) :=
        roundHalfEven_mono (div_le_div_of_nonneg_right h hs.le)
      exact_mod_cast this


/-- A number with a significand of `k + 1` binary digits is left unchanged. -/
theorem roundBinary_exact (k : ℕ) (m : ℤ) (s : ℤ) (h1 : (2 : ℤ) ^ k ≤ m)
    (h2 : m < (2 : ℤ) ^ (k + 1)) :
    roundBinary (k + 1) ((m : ℚ) * 2 ^ s) = (m : ℚ) * 2 ^ s := by
  have h2' : (0 : ℚ) < 2 := by norm_num
  have hm : (0 : ℚ) < (m : ℚ) := by
    have : (0 : ℤ) < m := lt_of_lt_of_le (by positivity) h1
    exact_mod_cast this
  have hq : (0 : ℚ) < (m : ℚ) * 2 ^ s := mul_pos hm (zpow_pos h2' _)
  have hlog : Int.log 2 ((m : ℚ) * 2 ^ s) = (k : ℤ) + s := by
    apply log_two_eq_of_bounds hq
    · rw [zpow_add₀ h2'.ne', zpow_natCast]
      exact mul_le_mul_of_nonneg_right (by exact_mod_cast h1) (zpow_pos h2' _).le
    · have : (2 : ℚ) ^ ((k : ℤ) + s + 1) = (2 : ℚ) ^ (k + 1) * 2 ^ s := by
        rw [← zpow_natCast, ← zpow_add₀ h2'.ne']
        congr 1
        push_cast
        omega
      rw [this]
      exact mul_lt_mul_of_pos_right (by exact_mod_cast h2) (zpow_pos h2' _)
  rw [roundBinary_of_pos k hq, hlog]
  have hs : (k : ℤ) + s - k = s := by omega
  rw [hs, mul_div_assoc, div_self (zpow_pos h2' _).ne', mul_one, roundHalfEven_intCast]

theorem roundBinary_two_mul (k : ℕ) {q : ℚ} (hq : 0 ≤ q) :
    roundBinary (k + 1) (2 * q) = 2 * roundBinary (k + 1) q := by
  rcases eq_or_lt_of_le hq with h0 | hq0
  · rw [← h0]; simp [roundBinary_zero]
  · have h2' : (0 : ℚ) < 2 := by norm_num
    have hq2 : (0 : ℚ) < 2 * q := by positivity
    have hlog : Int.log 2 (2 * q) = Int.log 2 q + 1 := by
      apply log_two_eq_of_bounds hq2
      · rw [zpow_add₀ h2'.ne', zpow_one, mul_comm]
        exact mul_le_mul_of_nonneg_left (zpow_log_two_le hq0) h2'.le
      · rw [zpow_add₀ h2'.ne' (Int.log 2 q + 1), zpow_one, mul_comm _ (2 : ℚ)]
        exact mul_lt_mul_of_pos_left (lt_zpow_log_two_succ q) h2'
    rw [roundBinary_of_pos k hq2, roundBinary_of_pos k hq0, hlog]
    have hs : Int.log 2 q + 1 - (k : ℤ) = (Int.log 2 q - k) + 1 := by omega
    rw [hs, zpow_add₀ h2'.ne', zpow_one]
    have hz : (0 : ℚ) < 2 ^ (Int.log 2 q - (k : ℤ)) := zpow_pos h2' _
    have : 2 * q / (2 ^ (Int.log 2 q - (k : ℤ)) * 2) = q / 2 ^ (Int.log 2 q - (k : ℤ)) := by
      field_simp
      ring
    rw [this]
    ring

theorem roundBinary_two_pow_mul (k j : ℕ) {q : ℚ} (hq : 0 ≤ q) :
    roundBinary (k + 1) (2 ^ j * q) = 2 ^ j * roundBinary (k + 1) q := by
  induction j with
  | zero => simp
  | succ j ih =>
    have h : (2 : ℚ) ^ (j + 1) * q = 2 * (2 ^ j * q) := by ring
    rw [h, roundBinary_two_mul k (by positivity), ih]
    ring

theorem toDouble_one : toDouble 1 = 1 := by
  have h := roundBinary_exact 52 (2 ^ 52) (-52) (by norm_num) (by norm_num)
  have e : (((2 : ℤ) ^ 52 : ℤ) : ℚ) * 2 ^ (-52 : ℤ) = 1 := by norm_num
  rw [e] at h
  exact h

theorem toDouble_fifty_eight : toDouble 58 = 58 := by
  have h := roundBinary_exact 52 (58 * 2 ^ 47) (-47) (by norm_num) (by norm_num)
  have e : (((58 * 2 ^ 47 : ℤ) : ℤ) : ℚ) * 2 ^ (-47 : ℤ) = 58 := by norm_num
  rw [e] at h
  exact h

theorem toFloat_fifty_eight : toFloat 58 = 58 := by
  have h := roundBinary_exact 23 (58 * 2 ^ 18) (-18) (by norm_num) (by norm_num)
  have e : (((58 * 2 ^ 18 : ℤ) : ℤ) : ℚ) * 2 ^ (-18 : ℤ) = 58 := by norm_num
  rw [e] at h
  exact h


theorem toDouble_nonneg {q : ℚ} (hq : 0 ≤ q) : 0 ≤ toDouble q := by
  have h := roundBinary_mono 52 (le_refl (0 : ℚ)) hq
  rwa [roundBinary_zero] at h

theorem toFloat_nonneg {q : ℚ} (hq : 0 ≤ q) : 0 ≤ toFloat q := by
  have h := roundBinary_mono 23 (le_refl (0 : ℚ)) hq
  rwa [roundBinary_zero] at h

theorem toDouble_two_pow (j : ℕ) : toDouble (2 ^ j) = 2 ^ j := by
  have h := roundBinary_two_pow_mul 52 j (q := 1) (by norm_num)
  rw [mul_one] at h
  unfold toDouble
  rw [h]
  have h1 : roundBinary (52 + 1) 1 = 1 := toDouble_one
  rw [h1, mul_one]

theorem toDouble_two_pow_mul_fifty_eight (j : ℕ) : toDouble (2 ^ j * 58) = 2 ^ j * 58 := by
  have h := roundBinary_two_pow_mul 52 j (q := 58) (by norm_num)
  have h1 : roundBinary (52 + 1) 58 = 58 := toDouble_fifty_eight
  unfold toDouble
  rw [h, h1]

theorem toFloat_two_pow_mul_fifty_eight (j : ℕ) : toFloat (2 ^ j * 58) = 2 ^ j * 58 := by
  have h := roundBinary_two_pow_mul 23 j (q := 58) (by norm_num)
  have h1 : roundBinary (23 + 1) 58 = 58 := toFloat_fifty_eight
  unfold toFloat
  rw [h, h1]

theorem gaugeFill_pos (used total : Nat) (h : 0 < total) :
    gaugeFill used total =
      FVal.fin (toFloat (toDouble (toDouble (toDouble used / toDouble total) * 58))) := by
  have hb : 0 < toDouble (total : ℚ) := roundBinary_pos 52 (by exact_mod_cast h)
  simp [gaugeFill, FVal.div, FVal.scale, FVal.narrow, hb.ne']

theorem gaugeFill_bounds (used total j : Nat) (h : 0 < total) :
    0 ≤ toFloat (toDouble (toDouble (toDouble used / toDouble total) * 58)) ∧
    (used ≤ 2 ^ j * total →
      toFloat (toDouble (toDouble (toDouble used / toDouble total) * 58)) ≤ 58 * 2 ^ j) ∧
    (2 ^ j * total ≤ used →
      58 * 2 ^ j ≤ toFloat (toDouble (toDouble (toDouble used / toDouble total) * 58))) := by
  have ha : 0 ≤ toDouble (used : ℚ) := toDouble_nonneg (Nat.cast_nonneg _)
  have hb : 0 < toDouble (total : ℚ) := roundBinary_pos 52 (by exact_mod_cast h)
  have hr : 0 ≤ toDouble (used : ℚ) / toDouble (total : ℚ) := div_nonneg ha hb.le
  have hx : 0 ≤ toDouble (toDouble (used : ℚ) / toDouble (total : ℚ)) := toDouble_nonneg hr
  have hy : 0 ≤ toDouble (toDouble (toDouble (used : ℚ) / toDouble (total : ℚ)) * 58) :=
    toDouble_nonneg (mul_nonneg hx (by norm_num))
  have hscale : toDouble (2 ^ j * (total : ℚ)) = 2 ^ j * toDouble (total : ℚ) :=
    roundBinary_two_pow_mul 52 j (Nat.cast_nonneg _)
  refine ⟨toFloat_nonneg hy, ?_, ?_⟩
  · intro hle
    have h1 : toDouble (used : ℚ) ≤ 2 ^ j * toDouble (total : ℚ) := by
      rw [← hscale]
      exact roundBinary_mono 52 (Nat.cast_nonneg _) (by exact_mod_cast hle)
    have h2 : toDouble (used : ℚ) / toDouble (total : ℚ) ≤ 2 ^ j := (div_le_iff₀ hb).2 h1
    have h3 : toDouble (toDouble (used : ℚ) / toDouble (total : ℚ)) ≤ 2 ^ j := by
      rw [← toDouble_two_pow j]
      exact roundBinary_mono 52 hr h2
    have h4 : toDouble (toDouble (toDouble (used : ℚ) / toDouble (total : ℚ)) * 58) ≤ 2 ^ j * 58 := by
      rw [← toDouble_two_pow_mul_fifty_eight j]
      exact roundBinary_mono 52 (mul_nonneg hx (by norm_num))
        (mul_le_mul_of_nonneg_right h3 (by norm_num))
    have h5 := roundBinary_mono 23 hy h4
    have h6 : roundBinary (23 + 1) (2 ^ j * 58) = 2 ^ j * 58 := toFloat_two_pow_mul_fifty_eight j
    rw [h6] at h5
    rw [mul_comm (58 : ℚ) (2 ^ j)]
    exact h5
  · intro hge
    have h1 : 2 ^ j * toDouble (total : ℚ) ≤ toDouble (used : ℚ) := by
      rw [← hscale]
      exact roundBinary_mono 52 (by positivity) (by exact_mod_cast hge)
    have h2 : 2 ^ j ≤ toDouble (used : ℚ) / toDouble (total : ℚ) := (le_div_iff₀ hb).2 h1
    have h3 : 2 ^ j ≤ toDouble (toDouble (used : ℚ) / toDouble (total : ℚ)) := by
      rw [← toDouble_two_pow j]
      exact roundBinary_mono 52 (by positivity) h2
    have h4 : 2 ^ j * 58 ≤ toDouble (toDouble (toDouble (used : ℚ) / toDouble (total : ℚ)) * 58) := by
      rw [← toDouble_two_pow_mul_fifty_eight j]
      exact roundBinary_mono 52 (by positivity) (mul_le_mul_of_nonneg_right h3 (by norm_num))
    have h5 := roundBinary_mono 23 (by positivity : (0 : ℚ) ≤ 2 ^ j * 58) h4
    have h6 : roundBinary (23 + 1) (2 ^ j * 58) = 2 ^ j * 58 := toFloat_two_pow_mul_fifty_eight j
    rw [h6] at h5
    rw [mul_comm (58 : ℚ) (2 ^ j)]
    exact h5

theorem gaugeFill_zero_total (used : Nat) :
    gaugeFill used 0 = if used = 0 then FVal.nan else FVal.inf := by
  have h0 : toDouble ((0 : ℕ) : ℚ) = 0 := by
    unfold toDouble
    rw [Nat.cast_zero, roundBinary_zero]
  unfold gaugeFill FVal.div
  rw [h0, if_pos rfl]
  by_cases hu : used = 0
  · subst hu
    rw [h0]
    rfl
  · have hpos : 0 < toDouble (used : ℚ) :=
      roundBinary_pos 52 (by exact_mod_cast Nat.pos_of_ne_zero hu)
    rw [if_neg hpos.ne', if_neg hu]
    rfl


theorem roundHalfEven_eq_of_lt_half {x : ℚ} (f : ℤ) (h1 : (f : ℚ) ≤ x) (h2 : x - f < 1 / 2) :
    roundHalfEven x = f := by
  have hf : ⌊x⌋ = f := Int.floor_eq_iff.2 ⟨h1, by linarith⟩
  unfold roundHalfEven
  rw [hf, if_pos h2]

theorem roundHalfEven_eq_of_half_lt {x : ℚ} (f : ℤ) (h1 : 1 / 2 < x - f) (h2 : x < f + 1) :
    roundHalfEven x = f + 1 := by
  have hf : ⌊x⌋ = f := Int.floor_eq_iff.2 ⟨by linarith, h2⟩
  unfold roundHalfEven
  rw [hf, if_neg (by linarith), if_pos h1]

theorem roundBinary_value (k : ℕ) {q : ℚ} (e n : ℤ) (hq : 0 < q) (h1 : (2 : ℚ) ^ e ≤ q)
    (h2 : q < (2 : ℚ) ^ (e + 1)) (hn : roundHalfEven (q / 2 ^ (e - k)) = n) :
    roundBinary (k + 1) q = (n : ℚ) * 2 ^ (e - k) := by
  rw [roundBinary_of_pos k hq, log_two_eq_of_bounds hq h1 h2, hn]

theorem toDouble_three : toDouble ((3 : ℕ) : ℚ) = 3 := by
  have h := roundBinary_exact 52 (3 * 2 ^ 51) (-51) (by norm_num) (by norm_num)
  have e : (((3 * 2 ^ 51 : ℤ) : ℤ) : ℚ) * 2 ^ (-51 : ℤ) = ((3 : ℕ) : ℚ) := by norm_num
  rw [e] at h
  exact h

/-- One third used: the three roundings give the single-precision neighbour of
`58 / 3`, which is 19.33333396911621. -/
theorem gaugeFill_one_third : gaugeFill 1 3 = FVal.fin (10136235 / 524288) := by
  rw [gaugeFill_pos 1 3 (by norm_num)]
  have h1 : toDouble ((1 : ℕ) : ℚ) = 1 := by rw [Nat.cast_one]; exact toDouble_one
  have hq : toDouble ((1 : ℚ) / 3) = 6004799503160661 / 18014398509481984 := by
    have h := roundBinary_value 52 (q := (1 : ℚ) / 3) (-2) 6004799503160661 (by norm_num)
      (by norm_num) (by norm_num)
      (roundHalfEven_eq_of_lt_half _ (by norm_num) (by norm_num))
    unfold toDouble
    rw [h]
    norm_num
  have hm : toDouble (6004799503160661 / 18014398509481984 * 58) =
      5441849549739349 / 281474976710656 := by
    have h := roundBinary_value 52 (q := (6004799503160661 : ℚ) / 18014398509481984 * 58) 4
      5441849549739349 (by norm_num) (by norm_num) (by norm_num)
      (roundHalfEven_eq_of_lt_half _ (by norm_num) (by norm_num))
    unfold toDouble
    rw [h]
    norm_num
  have hf : toFloat (5441849549739349 / 281474976710656) = 10136235 / 524288 := by
    have h := roundBinary_value 23 (q := (5441849549739349 : ℚ) / 281474976710656) 4
      (10136234 + 1) (by norm_num) (by norm_num) (by norm_num)
      (roundHalfEven_eq_of_half_lt 10136234 (by norm_num) (by norm_num))
    unfold toFloat
    rw [h]
    norm_num
  rw [h1, toDouble_three, hq, hm, hf]

theorem filledBarWidths_StorageInfoPage (info : StorageInfo) :
    filledBarWidths (StorageInfoPage info) =
      [ gaugeFill (info.usedSize SYSTEM_MEDIATYPE_SD) (info.totalSize SYSTEM_MEDIATYPE_SD),
        gaugeFill (info.usedSize SYSTEM_MEDIATYPE_CTR_NAND)
          (info.totalSize SYSTEM_MEDIATYPE_CTR_NAND),
        gaugeFill (info.usedSize SYSTEM_MEDIATYPE_TWL_NAND)
          (info.totalSize SYSTEM_MEDIATYPE_TWL_NAND),
        gaugeFill (info.usedSize SYSTEM_MEDIATYPE_TWL_PHOTO)
          (info.totalSize SYSTEM_MEDIATYPE_TWL_PHOTO) ] := rfl

/-- Twice as much used as there is in total: the bar is exactly 116 wide. -/
theorem gaugeFill_two_one : gaugeFill 2 1 = FVal.fin 116 := by
  rw [gaugeFill_pos 2 1 (by norm_num)]
  obtain ⟨_, hle, hge⟩ := gaugeFill_bounds 2 1 1 (by norm_num)
  have h1 := hle (by norm_num)
  have h2 := hge (by norm_num)
  have h3 : toFloat (toDouble (toDouble (toDouble ((2 : ℕ) : ℚ) / toDouble ((1 : ℕ) : ℚ)) * 58)) =
      116 := le_antisymm (by linarith) (by linarith)
  rw [h3]

/-- C5 fails when `used > total`: with 2 used out of 1 on every medium, the
four filled bars of `StorageInfoPage` are 116 pixels wide, outside `[0, 58]`. -/
theorem C5_counterexample :
    filledBarWidths (StorageInfoPage sampleSnapshot.storageInfo) =
      [FVal.fin 116, FVal.fin 116, FVal.fin 116, FVal.fin 116] ∧
    ¬ (FVal.fin 116).within 0 58 := by
  constructor
  · rw [filledBarWidths_StorageInfoPage]
    simp only [sampleSnapshot, gaugeFill_two_one]
  · simp only [FVal.within]
    norm_num

/-- C5 (amended): `StorageInfoPage` draws one filled bar per medium, and for
each medium `i` with `total[i] > 0`, whatever the other media hold, its width
is the `float` value of `(double) used[i] / (double) total[i] * 58`, with no
clamp: it is never negative, it lies in `[0, 58]` when `used[i] ≤ total[i]`,
it is at most `58 * 2 ^ j` when `used[i] ≤ 2 ^ j * total[i]` and at least
`58 * 2 ^ j` when `used[i] ≥ 2 ^ j * total[i]`, for every `j`. -/
theorem C5_gauge_width (info : StorageInfo) (i : Fin 4) :
    filledBarWidths (StorageInfoPage info) =
      [ gaugeFill (info.usedSize SYSTEM_MEDIATYPE_SD) (info.totalSize SYSTEM_MEDIATYPE_SD),
        gaugeFill (info.usedSize SYSTEM_MEDIATYPE_CTR_NAND)
          (info.totalSize SYSTEM_MEDIATYPE_CTR_NAND),
        gaugeFill (info.usedSize SYSTEM_MEDIATYPE_TWL_NAND)
          (info.totalSize SYSTEM_MEDIATYPE_TWL_NAND),
        gaugeFill (info.usedSize SYSTEM_MEDIATYPE_TWL_PHOTO)
          (info.totalSize SYSTEM_MEDIATYPE_TWL_PHOTO) ] ∧
    (0 < info.totalSize i →
      ∃ w : ℚ, gaugeFill (info.usedSize i) (info.totalSize i) = FVal.fin w ∧
        w = toFloat (toDouble (toDouble
              (toDouble (info.usedSize i) / toDouble (info.totalSize i)) * 58)) ∧
        0 ≤ w ∧
        (info.usedSize i ≤ info.totalSize i →
          (gaugeFill (info.usedSize i) (info.totalSize i)).within 0 58) ∧
        (∀ j : ℕ, info.usedSize i ≤ 2 ^ j * info.totalSize i → w ≤ 58 * 2 ^ j) ∧
        (∀ j : ℕ, 2 ^ j * info.totalSize i ≤ info.usedSize i → 58 * 2 ^ j ≤ w)) := by
  refine ⟨filledBarWidths_StorageInfoPage info, ?_⟩
  intro hpos
  refine ⟨_, gaugeFill_pos _ _ hpos, rfl, (gaugeFill_bounds _ _ 0 hpos).1, ?_, ?_, ?_⟩
  · intro hle
    rw [gaugeFill_pos _ _ hpos]
    refine ⟨(gaugeFill_bounds _ _ 0 hpos).1, ?_⟩
    have h := (gaugeFill_bounds _ _ 0 hpos).2.1 (by simpa using hle)
    simpa using h
  · intro j hle
    exact (gaugeFill_bounds _ _ j hpos).2.1 hle
  · intro j hge
    exact (gaugeFill_bounds _ _ j hpos).2.2 hge

/-- C5 (amended) on a record with 1 used out of 2 on every medium: the bar of
the first medium has a finite width between 0 and 58. -/
theorem C5_gauge_width_witness :
    ∃ w : ℚ, gaugeFill (sampleStorageHalf.usedSize 0) (sampleStorageHalf.totalSize 0) =
        FVal.fin w ∧ 0 ≤ w ∧
      (gaugeFill (sampleStorageHalf.usedSize 0) (sampleStorageHalf.totalSize 0)).within 0 58 :=
  match (C5_gauge_width sampleStorageHalf 0).2 (by decide) with
  | ⟨w, h1, _, h0, h58, _, _⟩ => ⟨w, h1, h0, h58 (by decide)⟩

/-! ## Lemmas on the temperature conversion -/

theorem fahrenheit_of_le (temp : Nat) (h : temp ≤ 124) : fahrenheit temp = temp * 9 / 5 + 32 := by
  unfold fahrenheit
  omega

theorem fahrenheit_of_gt (temp : Nat) (h : 124 < temp) (h2 : temp ≤ 255) :
    fahrenheit temp ≠ temp * 9 / 5 + 32 := by
  unfold fahrenheit
  omega

/-- C6: the battery page at a successful temperature query of 20 °C shows 68,
but at 125 °C it shows 1 where `125 * 9 / 5 + 32` is 257: the value is cut to
eight bits before it is drawn. -/
theorem C6_fahrenheit_truncated (info : SystemStateInfo) :
    (BatteryInfoPage info { sampleLive with batteryTemperature := ⟨0, 0, 20⟩ }).get? 2 =
      some (DrawCmd.itemf 3 "电池温度:" "%d °C (%d °F)" [Arg.int 20, Arg.int 68]) ∧
    (BatteryInfoPage info { sampleLive with batteryTemperature := ⟨0, 0, 125⟩ }).get? 2 =
      some (DrawCmd.itemf 3 "电池温度:" "%d °C (%d °F)" [Arg.int 125, Arg.int 1]) ∧
    125 * 9 / 5 + 32 = 257 :=
  ⟨rfl, rfl, rfl⟩

/-! ## Lemmas on the battery page queries -/

theorem ipcQueryU8_send_failed (reply : IpcReply) (out : Nat)
    (h : R_FAILED reply.sendResult = true) : ipcQueryU8 reply out = (reply.sendResult, out) := by
  simp [ipcQueryU8, h]

theorem ipcQueryU8_sent (reply : IpcReply) (out : Nat)
    (h : R_FAILED reply.sendResult = false) :
    ipcQueryU8 reply out = (reply.cmdbuf1, reply.cmdbuf2 % 256) := by
  simp [ipcQueryU8, h]

theorem BatteryInfoPage_firmware_row (info : SystemStateInfo) (live : Live) :
    (BatteryInfoPage info live).get? 4 =
      some (DrawCmd.itemf 5 "MCU 固件:" "%u.%u"
        [Arg.int (((ipcQueryU8 live.fwVerHigh 0).2 : Int) - 0x10),
         Arg.int (ipcQueryU8 live.fwVerLow 0).2]) := rfl

/-- Whatever the other queries do, a firmware high-byte request that fails at
the send leaves `fwVerHigh = 0` and the row is drawn from `0 - 0x10`. -/
theorem BatteryInfoPage_firmware_row_failed (info : SystemStateInfo) (live : Live)
    (h : R_FAILED live.fwVerHigh.sendResult = true) :
    (BatteryInfoPage info live).get? 4 =
      some (DrawCmd.itemf 5 "MCU 固件:" "%u.%u"
        [Arg.int (-16), Arg.int (ipcQueryU8 live.fwVerLow 0).2]) := by
  rw [BatteryInfoPage_firmware_row, ipcQueryU8_send_failed _ _ h]
  rfl

/-- The rows of the battery page that test their return code, or draw a
zero-initialised variable, show `0` or "未知" when every request fails at the
send. -/
theorem BatteryInfoPage_failed_rows (info : SystemStateInfo) :
    (BatteryInfoPage info sampleLiveFailed).take 4 =
      [ DrawCmd.itemf 1 "电量百分比:" "%3d%% (%s)" [Arg.int 0, Arg.str "未知"],
        DrawCmd.itemf 2 "电池电压:" "%d (%.1f V)" [Arg.int 0, Arg.real 0],
        DrawCmd.itemf 3 "电池温度:" "%d °C (%d °F)" [Arg.int 0, Arg.int 0],
        DrawCmd.itemf 4 "适配器状态:" "未知" [] ] := by
  have hv : (5 : ℚ) * (((0 : ℕ) : ℚ) / 256) = 0 := by norm_num
  have h : (BatteryInfoPage info sampleLiveFailed).take 4 =
      [ DrawCmd.itemf 1 "电量百分比:" "%3d%% (%s)" [Arg.int 0, Arg.str "未知"],
        DrawCmd.itemf 2 "电池电压:" "%d (%.1f V)" [Arg.int 0, Arg.real (5 * (((0 : ℕ) : ℚ) / 256))],
        DrawCmd.itemf 3 "电池温度:" "%d °C (%d °F)" [Arg.int 0, Arg.int 0],
        DrawCmd.itemf 4 "适配器状态:" "未知" [] ] := rfl
  rw [h, hv]

/-- C11: with every battery-page request failing at the send (outputs left at
their initial zero), the MCU firmware row is not drawn from a sentinel: its
major number is `0 - 0x10 = -16`, which `%u` prints as 4294967280, while the
minor number is 0. -/
theorem C11_failed_firmware_not_sentinel (info : SystemStateInfo) :
    (BatteryInfoPage info sampleLiveFailed).get? 4 =
      some (DrawCmd.itemf 5 "MCU 固件:" "%u.%u" [Arg.int (-16), Arg.int 0]) ∧
    printfUnsigned (-16) = 4294967280 ∧ printfUnsigned 0 = 0 :=
  ⟨rfl, by decide, by decide⟩

/-- C15 fails for a high byte below 16: with the queries storing
`fwVerHigh = 0` and `fwVerLow = 56` the major argument is `-16`, and `%u`
prints it as 4294967280, which is not `fwVerHigh - 0x10`. -/
theorem C15_counterexample :
    (BatteryInfoPage sampleSnapshot.systemStateInfo
        { sampleLive with fwVerHigh := ⟨0, 0, 0⟩ }).get? 4 =
      some (DrawCmd.itemf 5 "MCU 固件:" "%u.%u" [Arg.int (-16), Arg.int 56]) ∧
    printfUnsigned (-16) = 4294967280 ∧
    (printfUnsigned (-16) : Int) ≠ (0 : Int) - 0x10 :=
  ⟨rfl, by decide, by decide⟩

/-- C15 (amended): when both firmware queries are sent and the high byte is at
least 16, the MCU firmware row is drawn from the arguments `fwVerHigh - 0x10`
and `fwVerLow`, and `%u` prints them as those same decimal numbers. -/
theorem C15_firmware_version (info : SystemStateInfo) (live : Live)
    (hh : R_FAILED live.fwVerHigh.sendResult = false)
    (hl : R_FAILED live.fwVerLow.sendResult = false)
    (h16 : 16 ≤ live.fwVerHigh.cmdbuf2 % 256) :
    (BatteryInfoPage info live).get? 4 =
      some (DrawCmd.itemf 5 "MCU 固件:" "%u.%u"
        [Arg.int (((live.fwVerHigh.cmdbuf2 % 256 : ℕ) : Int) - 0x10),
         Arg.int ((live.fwVerLow.cmdbuf2 % 256 : ℕ) : Int)]) ∧
    printfUnsigned (((live.fwVerHigh.cmdbuf2 % 256 : ℕ) : Int) - 0x10) =
      live.fwVerHigh.cmdbuf2 % 256 - 16 ∧
    printfUnsigned ((live.fwVerLow.cmdbuf2 % 256 : ℕ) : Int) = live.fwVerLow.cmdbuf2 % 256 := by
  refine ⟨?_, ?_, ?_⟩
  · rw [BatteryInfoPage_firmware_row, ipcQueryU8_sent _ _ hh, ipcQueryU8_sent _ _ hl]
  · unfold printfUnsigned
    omega
  · unfold printfUnsigned
    omega

/-- C15 (amended) on the bytes 19 and 56: the row shows 3.56. -/
theorem C15_firmware_version_witness :
    (BatteryInfoPage sampleSnapshot.systemStateInfo sampleLive).get? 4 =
      some (DrawCmd.itemf 5 "MCU 固件:" "%u.%u" [Arg.int 3, Arg.int 56]) ∧
    printfUnsigned 3 = 3 ∧ printfUnsigned 56 = 56 :=
  C15_firmware_version sampleSnapshot.systemStateInfo sampleLive (by decide) (by decide)
    (by decide)

/-- C16: the A test of line 571 reads the selection after the Up/Down update
and the wrap of the same step: with A newly pressed the step breaks exactly
when Start is newly pressed or the updated selection is the Exit page; and
with Down and Up both newly pressed the step moves as for Down alone. -/
theorem C16_exit_reads_updated_selection (s : MenuState) (kDown kHeld : Nat) :
    (MainMenuStep s kDown kHeld).1.selection = wrapSelection (moveSelection s.selection kDown) ∧
    (pressed kDown KEY_A = true →
      ((MainMenuStep s kDown kHeld).2 = true ↔
        (pressed kDown KEY_START = true ∨
          wrapSelection (moveSelection s.selection kDown) = EXIT_PAGE))) ∧
    (pressed kDown KEY_DOWN = true → pressed kDown KEY_UP = true →
      (MainMenuStep s kDown kHeld).1.selection = wrapSelection (s.selection + 1)) ∧
    (pressed kDown KEY_DOWN = true → pressed kDown KEY_UP = true →
      0 ≤ s.selection → s.selection ≤ 9 →
      (MainMenuStep s kDown kHeld).1.selection = (s.selection + 1) % 10) := by
  refine ⟨rfl, ?_, ?_, ?_⟩
  · intro ha
    simp [MainMenuStep, ha]
  · intro hd _
    simp [MainMenuStep, moveSelection, hd]
  · intro hd _ h0 h9
    simp only [MainMenuStep, moveSelection, wrapSelection, hd, if_true, EXIT_PAGE,
      KERNEL_INFO_PAGE]
    split_ifs <;> omega

/-- C16 on the three cases of the claim: A with Down on the Misc page and A
with Up on page 0 break with the Exit page selected, A with Down on the Exit
page wraps to page 0 and does not break; and Down with Up on page 3 selects
page 4. -/
theorem C16_exit_reads_updated_selection_witness :
    (MainMenuStep ⟨8, true, false, true⟩ (KEY_A ||| KEY_DDOWN) 0).2 = true ∧
    (MainMenuStep ⟨0, true, false, true⟩ (KEY_A ||| KEY_DUP) 0).2 = true ∧
    ((MainMenuStep ⟨9, true, false, true⟩ (KEY_A ||| KEY_DDOWN) 0).1.selection = 0 ∧
      ¬ (MainMenuStep ⟨9, true, false, true⟩ (KEY_A ||| KEY_DDOWN) 0).2 = true) ∧
    (MainMenuStep ⟨3, true, false, true⟩ (KEY_DDOWN ||| KEY_DUP) 0).1.selection = 4 :=
  ⟨((C16_exit_reads_updated_selection ⟨8, true, false, true⟩ (KEY_A ||| KEY_DDOWN) 0).2.1
      (by decide)).2 (Or.inr (by decide)),
   ((C16_exit_reads_updated_selection ⟨0, true, false, true⟩ (KEY_A ||| KEY_DUP) 0).2.1
      (by decide)).2 (Or.inr (by decide)),
   ⟨by decide,
    fun h => absurd
      (((C16_exit_reads_updated_selection ⟨9, true, false, true⟩ (KEY_A ||| KEY_DDOWN) 0).2.1
        (by decide)).1 h) (by decide)⟩,
   (C16_exit_reads_updated_selection ⟨3, true, false, true⟩ (KEY_DDOWN ||| KEY_DUP) 0).2.2.2
      (by decide) (by decide) (by decide) (by decide)⟩

/-- C13: in each of the four build variants, every call of `GUI::Exit` takes
down one subsystem, and the subsystems taken down are those brought up by
`GUI::Init` in exactly the reverse order. -/
theorem C13_gui_exit_reverses_init (BUILD_DEBUG BUILD_CITRA : Bool) :
    (Exit BUILD_DEBUG BUILD_CITRA).map Call.releases =
      (((Init BUILD_DEBUG BUILD_CITRA).filterMap Call.acquires).reverse).map some ∧
    (Init true false).filterMap Call.acquires =
      [ Subsystem.romfs, Subsystem.gfx, Subsystem.C3D, Subsystem.C2D, Subsystem.font,
        Subsystem.guiStaticBuf, Subsystem.guiDynamicBuf, Subsystem.guiSizeBuf,
        Subsystem.textures, Subsystem.log, Subsystem.mcuHwc, Subsystem.ptmu, Subsystem.cfgu,
        Subsystem.dsp, Subsystem.soc ] := by
  cases BUILD_DEBUG <;> cases BUILD_CITRA <;> exact ⟨rfl, rfl⟩

end GUI

namespace Service

/-- C14 fails on the order: the handles released by `Service::Exit`, in order,
are ac, cfgu, am, while the reverse of the acquisition order is cfgu, ac, am. -/
theorem C14_counterexample :
    Exit.filterMap GUI.Call.releases ≠ (Init.filterMap GUI.Call.acquires).reverse := by
  decide

/-- C14 (amended): every call of `Service::Exit` releases a handle, the handles
released are exactly those `Service::Init` acquired (am, ac, cfgu), each
exactly once, in the order ac, cfgu, am. -/
theorem C14_service_exit_releases :
    Init.filterMap GUI.Call.acquires =
      [GUI.Subsystem.am, GUI.Subsystem.ac, GUI.Subsystem.cfgu] ∧
    Exit.map GUI.Call.releases =
      [some GUI.Subsystem.ac, some GUI.Subsystem.cfgu, some GUI.Subsystem.am] ∧
    (Exit.filterMap GUI.Call.releases).Perm (Init.filterMap GUI.Call.acquires) ∧
    (Exit.filterMap GUI.Call.releases).Nodup := by
  refine ⟨rfl, rfl, ?_, ?_⟩ <;> decide

end Service

namespace Wifi

/-- C12: each of `GetSSID`, `GetPassphrase` and `GetSecurityMode` returns
"未知" when its query fails; on success the first two return the queried
string, `GetSecurityMode` returns entry `m` of the eight-name table for every
`m ≤ 7`, and for every value of the mode enumeration the lookup is inside the
table. -/
theorem C12_wifi_getters (ret : Int) (value : String) (m : Nat) (mode : acSecurityMode) :
    (GUI.R_FAILED ret = true →
      GetSSID ret value = "未知" ∧ GetPassphrase ret value = "未知" ∧
      GetSecurityMode ret m = some "未知") ∧
    (GUI.R_FAILED ret = false →
      GetSSID ret value = value ∧ GetPassphrase ret value = value) ∧
    (GUI.R_FAILED ret = false → m ≤ 7 →
      GetSecurityMode ret m =
          [ "未加密", "WEP 40-bit", "WEP 104-bit", "WEP 128-bit", "WPA TKIP", "WPA2 TKIP",
            "WPA AES", "WPA2 AES" ].get? m ∧
        (GetSecurityMode ret m).isSome = true) ∧
    (GUI.R_FAILED ret = false →
      mode.toNat ≤ 7 ∧ (GetSecurityMode ret mode.toNat).isSome = true) := by
  have hlen : ∀ k : Nat, k ≤ 7 → (securityMode.get? k).isSome = true := by
    intro k hk
    interval_cases k <;> rfl
  refine ⟨?_, ?_, ?_, ?_⟩
  · intro h
    simp [GetSSID, GetPassphrase, GetSecurityMode, h]
  · intro h
    simp [GetSSID, GetPassphrase, h]
  · intro h hm
    have hg : GetSecurityMode ret m = securityMode.get? m := by simp [GetSecurityMode, h]
    exact ⟨hg, hg ▸ hlen m hm⟩
  · intro h
    have hm : mode.toNat ≤ 7 := by cases mode <;> decide
    have hg : GetSecurityMode ret mode.toNat = securityMode.get? mode.toNat := by
      simp [GetSecurityMode, h]
    exact ⟨hm, hg ▸ hlen _ hm⟩

/-- C12 on a failing query (result -1) and on a successful one storing mode 7,
which yields the last name of the table. -/
theorem C12_wifi_getters_witness :
    (GetSSID (-1) "home" = "未知" ∧ GetPassphrase (-1) "home" = "未知" ∧
      GetSecurityMode (-1) 7 = some "未知") ∧
    (GetSSID 0 "home" = "home" ∧ GetPassphrase 0 "home" = "home") ∧
    GetSecurityMode 0 7 = some "WPA2 AES" :=
  ⟨(C12_wifi_getters (-1) "home" 7 acSecurityMode.AC_WPA2_AES).1 (by decide),
   (C12_wifi_getters 0 "home" 7 acSecurityMode.AC_WPA2_AES).2.1 (by decide),
   ((C12_wifi_getters 0 "home" 7 acSecurityMode.AC_WPA2_AES).2.2.1 (by decide)
      (by decide)).1⟩

end Wifi
